import Mathlib

/-!
Verification development for the ABC / inventory-forecast analytics engine of the
Dash_ABC-COMCREM-V2 repository.

The JavaScript source is shallowly embedded:

* JS numbers are modelled as exact rationals (`ℚ`) where the code only performs
  field arithmetic, and as reals (`ℝ`) where `Math.sqrt` is involved
  (Pearson correlation, standard deviation).
* A raw record field (which may be `null`, `undefined`, a string or a number) is
  the inductive `RawField`; `Number(...)` is modelled as `Option ℚ` with `none`
  playing the role of `NaN`.
* Calendar dates are abstracted to integer month indices (`ℤ`); a missing or
  falsy date field is `Option.none`.  Month keys of the form "YYYY-MM" compare
  (via `localeCompare` / string sort) exactly like their month indices, so the
  source's string-keyed month maps are modelled as `ℤ`-keyed ones.
* `Array.prototype.sort` is required by the ECMAScript spec to be stable; it is
  modelled by `List.insertionSort` with the comparator turned into a relation
  (`orderedInsert` places an element before the first existing element it
  compares less-or-equal to, which matches a stable sort).
* Display-only string formatting (`toFixed(2)`, locale month names) is omitted:
  the numeric quantities the formatting is applied to are kept exact.
-/

/-- A raw JS value as it can appear in a transaction record field. -/
inductive RawField where
  | fnull
  | fundef
  | fstr (s : String)
  | fnum (q : ℚ)
  deriving DecidableEq

/-- Numeric value of a list of decimal digit characters (most significant first). -/
def digitsVal (ds : List Char) : ℕ :=
  ds.foldl (fun a c => 10 * a + (c.toNat - 48)) 0

/-- Body of JS `parseFloat` after the optional sign: leading digits, an
optional dot, fractional digits.  Parsing stops at the first character that
cannot extend the literal; `none` models `NaN` (no digit consumed). -/
def parsePFbody (sgn : ℚ) (cs2 : List Char) : Option ℚ :=
  let intDs := cs2.takeWhile Char.isDigit
  let rest := cs2.dropWhile Char.isDigit
  let fracDs :=
    match rest with
    | '.' :: r => r.takeWhile Char.isDigit
    | _ => []
  if intDs.isEmpty && fracDs.isEmpty then none
  else some (sgn * ((digitsVal intDs : ℚ) + (digitsVal fracDs : ℚ) / (10 : ℚ) ^ fracDs.length))

/-- JS `parseFloat` on a character list, restricted to plain decimal literals
(the call sites feed it strings containing only digits, `.` and `,`, so the
exponent/hex forms of the full JS grammar cannot occur): an optional leading
sign, then the literal body. -/
def parsePF (cs : List Char) : Option ℚ :=
  match cs with
  | '-' :: rest => parsePFbody (-1) rest
  | '+' :: rest => parsePFbody 1 rest
  | _ => parsePFbody 1 cs

/-- Decimal digits of the fractional part `num / den` (long division with fuel;
exact for fractions with a terminating decimal expansion, which is the only kind
a JS float can print). -/
def fracDigits : ℕ → ℕ → ℕ → List Char
  | _, _, 0 => []
  | num, den, fuel + 1 =>
    if num = 0 then []
    else
      let num10 := num * 10
      Char.ofNat (48 + num10 / den) :: fracDigits (num10 % den) den fuel

/-- JS `String(x)` for a number, modelled as the exact decimal rendering of the
rational. -/
def jsNumToString (q : ℚ) : String :=
  let sgn := if q < 0 then "-" else ""
  let n := q.num.natAbs
  let fr := fracDigits (n % q.den) q.den 40
  sgn ++ toString (n / q.den) ++ (if fr.isEmpty then "" else "." ++ fr.asString)

/-- JS `String(x)` on a raw field. -/
def rawToString (v : RawField) : String :=
  match v with
  | .fnull => "null"
  | .fundef => "undefined"
  | .fstr s => s
  | .fnum q => jsNumToString q

/-- `replace(',', '.')` — JS `String.prototype.replace` with a string pattern
replaces only the *first* occurrence. -/
def replaceFirstComma : List Char → List Char
  | [] => []
  | c :: rest => if c = ',' then '.' :: rest else c :: replaceFirstComma rest

/-- `str.replace(/[^\d.,]/g, '')`: keep only digits, `.` and `,`.  The `trim()`
preceding it in the source is omitted because this filter already removes all
whitespace. -/
def cleanChars (s : String) : List Char :=
  s.toList.filter fun c => c.isDigit || c == '.' || c == ','

/-- `validateQuantity` from the ABC utils / forecast utils modules (the two
copies are textually identical): null/undefined/empty to 0, stringify, strip
everything but digits `.` `,`, first comma to dot, `parseFloat`, `NaN` to 0. -/
def validateQuantity (v : RawField) : ℚ :=
  match v with
  | .fnull => 0
  | .fundef => 0
  | .fstr s =>
    if s = "" then 0
    else (parsePF (replaceFirstComma (cleanChars s))).getD 0
  | .fnum q => (parsePF (replaceFirstComma (cleanChars (jsNumToString q)))).getD 0

/-- `validateUnitValue` — same pipeline as `validateQuantity` (duplicated in the
source). -/
def validateUnitValue (v : RawField) : ℚ :=
  match v with
  | .fnull => 0
  | .fundef => 0
  | .fstr s =>
    if s = "" then 0
    else (parsePF (replaceFirstComma (cleanChars s))).getD 0
  | .fnum q => (parsePF (replaceFirstComma (cleanChars (jsNumToString q)))).getD 0

/-- A raw transaction record as read by `calculateLineAmount` (part_003): the
original amount/quantity/unit-value fields plus the optional pre-computed
`*_NUM` backup fields. -/
structure Item where
  LINE_AMOUNT : RawField
  QUANTIDADE : RawField
  VRLUNIT : RawField
  QUANTIDADE_NUM : RawField
  VRLUNIT_NUM : RawField
  deriving DecidableEq

/-- Whitespace trim on a character list (JS `String.prototype.trim`). -/
def trimChars (cs : List Char) : List Char :=
  ((cs.dropWhile Char.isWhitespace).reverse.dropWhile Char.isWhitespace).reverse

/-- Strict numeric-literal parse used by JS `Number(string)`: the whole trimmed
string must be a decimal literal (again restricted to plain decimals; `none`
models `NaN`, the empty/whitespace string converts to 0). -/
def jsNumberOfString (s : String) : Option ℚ :=
  let cs := trimChars s.toList
  if cs.isEmpty then some 0
  else
    let (sgn, cs2) : ℚ × List Char :=
      match cs with
      | '-' :: rest => (-1, rest)
      | '+' :: rest => (1, rest)
      | _ => (1, cs)
    let intDs := cs2.takeWhile Char.isDigit
    let rest := cs2.dropWhile Char.isDigit
    let (fracDs, rest2) : List Char × List Char :=
      match rest with
      | '.' :: r => (r.takeWhile Char.isDigit, r.dropWhile Char.isDigit)
      | _ => ([], rest)
    if (intDs.isEmpty && fracDs.isEmpty) || !rest2.isEmpty then none
    else some (sgn * ((digitsVal intDs : ℚ) + (digitsVal fracDs : ℚ) / (10 : ℚ) ^ fracDs.length))

/-- JS `Number(x)`; `none` models `NaN`. -/
def jsNumber (v : RawField) : Option ℚ :=
  match v with
  | .fnull => some 0
  | .fundef => none
  | .fstr s => jsNumberOfString s
  | .fnum q => some q

/-- JS truthiness of a raw field. -/
def truthy (v : RawField) : Bool :=
  match v with
  | .fnull => false
  | .fundef => false
  | .fstr s => s ≠ ""
  | .fnum q => q ≠ 0

/-- `calculateLineAmount` from part_003 (lines 46–64): `LINE_AMOUNT` verbatim
when non-null, non-undefined and `Number`-coercible; otherwise
`validateQuantity(QUANTIDADE) × validateUnitValue(VRLUNIT)`; and when that
product is 0 while both `QUANTIDADE_NUM` and `VRLUNIT_NUM` are truthy,
`Number(QUANTIDADE_NUM) × Number(VRLUNIT_NUM)` instead (which is `NaN`, i.e.
`none`, when either backup field fails to coerce). -/
def calculateLineAmount (item : Item) : Option ℚ :=
  if item.LINE_AMOUNT ≠ .fnull ∧ item.LINE_AMOUNT ≠ .fundef ∧
      (jsNumber item.LINE_AMOUNT).isSome then
    jsNumber item.LINE_AMOUNT
  else
    let quantity := validateQuantity item.QUANTIDADE
    let unitValue := validateUnitValue item.VRLUNIT
    let calculatedAmount := quantity * unitValue
    if calculatedAmount = 0 ∧ truthy item.QUANTIDADE_NUM ∧ truthy item.VRLUNIT_NUM then
      match jsNumber item.QUANTIDADE_NUM, jsNumber item.VRLUNIT_NUM with
      | some a, some b => some (a * b)
      | _, _ => none
    else
      some calculatedAmount

/-! ## JS float edge values

Where a code path can produce `NaN` or `±Infinity` (an unguarded division by
zero), JS numbers are modelled by `JSN`: a rational payload extended with the
three special values, with the JS semantics of `+`, `/`, `×` and comparisons on
them. -/

/-- A JS number that may be `NaN` or `±Infinity`. -/
inductive JSN where
  | fin (q : ℚ)
  | nan
  | pinf
  | ninf
  deriving DecidableEq

/-- JS addition on possibly-special numbers. -/
def JSN.add : JSN → JSN → JSN
  | .nan, _ => .nan
  | _, .nan => .nan
  | .pinf, .ninf => .nan
  | .ninf, .pinf => .nan
  | .pinf, _ => .pinf
  | _, .pinf => .pinf
  | .ninf, _ => .ninf
  | _, .ninf => .ninf
  | .fin a, .fin b => .fin (a + b)

/-- JS division of two ordinary numbers: `0/0 = NaN`, `±x/0 = ±Infinity`. -/
def jdiv (a b : ℚ) : JSN :=
  if b = 0 then (if a = 0 then .nan else if 0 < a then .pinf else .ninf)
  else .fin (a / b)

/-- Multiplication by a positive rational constant (the only JS multiplications
applied to possibly-special values in the source use the constants 100, 2 and
1.5). -/
def JSN.mulPos (x : JSN) (c : ℚ) : JSN :=
  match x with
  | .fin q => .fin (q * c)
  | .nan => .nan
  | .pinf => .pinf
  | .ninf => .ninf

/-- Division by a positive rational constant (used for `/ 6`). -/
def JSN.divPos (x : JSN) (c : ℚ) : JSN :=
  match x with
  | .fin q => .fin (q / c)
  | .nan => .nan
  | .pinf => .pinf
  | .ninf => .ninf

/-- JS `x <= c` for a constant `c` (`NaN` compares false). -/
def JSN.leQ (x : JSN) (c : ℚ) : Bool :=
  match x with
  | .fin q => q ≤ c
  | .nan => false
  | .pinf => false
  | .ninf => true

/-- JS `x >= c` for a constant `c` (`NaN` compares false). -/
def JSN.geQ (x : JSN) (c : ℚ) : Bool :=
  match x with
  | .fin q => c ≤ q
  | .nan => false
  | .pinf => true
  | .ninf => false

/-- JS `isNaN`. -/
def JSN.isNaN (x : JSN) : Bool := x == .nan

/-! ## Stable sorting

`Array.prototype.sort(cmp)` is stable (ECMAScript 2019).  With a comparator of
the form `(a, b) => keyOf b - keyOf a` it orders by `keyOf` descending, keeping
the original order of ties; this is exactly `List.insertionSort` with the
relation `fun a b => keyOf b ≤ keyOf a`, since `orderedInsert` puts the element
being inserted before every tie already placed. -/

section StableSort

attribute [local instance] Classical.propDecidable

/-- JS stable sort with a `(a, b) => key b - key a` style comparator, modelled
via `List.insertionSort` on the corresponding relation. -/
noncomputable def jsSortBy (r : α → α → Prop) (l : List α) : List α :=
  List.insertionSort r l

end StableSort

/-! ## part_003 (`abcAnalysis` utils): ABC classification over grouped aggregates

The grouping pass (lines 80–107) folds transaction rows into per-key aggregates;
the classification stage below (lines 110–136) is the part the claims quantify
over, so it is embedded taking the list of aggregates as input. -/

namespace AbcUtils

/-- One grouping key's rollup, as built by the `reduce` grouping pass
(the `items` array is carried along in the source but never used by the
classification stage, so it is omitted). -/
structure Agg where
  name : String
  totalValue : ℚ
  totalQuantity : ℚ
  count : ℕ
  averageUnitValue : ℚ
  deriving DecidableEq

/-- Aggregate decorated by the classification stage.  `percentage` and
`cumulativePercentage` are kept exact (the source stores `toFixed(2)` strings of
them for display). -/
structure AggEntry extends Agg where
  percentage : ℚ
  cumulativePercentage : ℚ
  classification : String
  rank : ℕ
  deriving DecidableEq

/-- `sortedData`: sort groups by `totalValue` descending (stable). -/
noncomputable def sortedGroups (groups : List Agg) : List Agg :=
  jsSortBy (fun a b => b.totalValue ≤ a.totalValue) groups

/-- The `map` with the running `cumulativePercentage` accumulator and the
`index + 1` rank, fixed 80 / 95 thresholds (lines 117–136). -/
def abcGo (totalValue : ℚ) : List Agg → ℚ → ℕ → List AggEntry
  | [], _, _ => []
  | item :: rest, cum, idx =>
    let percentage := if totalValue > 0 then item.totalValue / totalValue * 100 else 0
    let cum2 := cum + percentage
    let classification := if cum2 ≤ 80 then "A" else if cum2 ≤ 95 then "B" else "C"
    { toAgg := item, percentage := percentage, cumulativePercentage := cum2,
      classification := classification, rank := idx + 1 } :: abcGo totalValue rest cum2 (idx + 1)

/-- Result object of `calculateABCAnalysis` (part_003): the classified list, the
grand total, and the three class buckets of the `summary`. -/
structure ABCResult where
  data : List AggEntry
  totalValue : ℚ
  classA : List AggEntry
  classB : List AggEntry
  classC : List AggEntry

/-- `calculateABCAnalysis` from part_003, classification stage (lines 110–147). -/
noncomputable def calculateABCAnalysis (groups : List Agg) : ABCResult :=
  let sorted := sortedGroups groups
  let totalValue := (sorted.map Agg.totalValue).sum
  let result := abcGo totalValue sorted 0 0
  { data := result
    totalValue := totalValue
    classA := result.filter fun item => item.classification = "A"
    classB := result.filter fun item => item.classification = "B"
    classC := result.filter fun item => item.classification = "C" }

end AbcUtils

/-! ## part_004 (`inventoryForecast` utils): spreadsheet-style pipeline -/

namespace ForecastUtils

/-- Per-SKU base metrics produced by `calculateBaseMetrics` (part_004 lines
32–75).  `monthlyData` is the chronologically sorted list of
`{month, value}` pairs with months abstracted to integers (the display-only
`monthName` is omitted). -/
structure SKUM where
  sku : String
  totalGeral : ℚ
  vendaMinima : ℚ
  vendaMaxima : ℚ
  mediaTotal : ℚ
  mediaMensal : ℚ
  monthlyData : List (ℤ × ℚ)
  deriving DecidableEq

/-- The `abcThresholds` configuration object `{ a, b, c }` (default
`{ a: 20, b: 30, c: 50 }`). -/
structure Thresholds where
  a : ℚ
  b : ℚ
  c : ℚ
  deriving DecidableEq

/-- SKU metrics decorated by `calculateABCAnalysis` (part_004). -/
structure ABCEntry extends SKUM where
  percentage : ℚ
  cumulativePercentage : ℚ
  classification : String
  rank : ℕ
  deriving DecidableEq

/-- The cumulative-percentage / classification `map` of part_004's
`calculateABCAnalysis` (lines 86–105): class `A` while the running cumulative
percentage is `≤ thresholds.a`, `B` while `≤ thresholds.a + thresholds.b`,
otherwise `C`. -/
def abcGo (totalSum : ℚ) (th : Thresholds) : List SKUM → ℚ → ℕ → List ABCEntry
  | [], _, _ => []
  | sku :: rest, cum, idx =>
    let percentage := if totalSum > 0 then sku.totalGeral / totalSum * 100 else 0
    let cum2 := cum + percentage
    let classification := if cum2 ≤ th.a then "A" else if cum2 ≤ th.a + th.b then "B" else "C"
    { toSKUM := sku, percentage := percentage, cumulativePercentage := cum2,
      classification := classification, rank := idx + 1 } :: abcGo totalSum th rest cum2 (idx + 1)

/-- `calculateABCAnalysis` from part_004 (lines 78–108): stable sort by
`totalGeral` descending, grand total, then running classification. -/
noncomputable def calculateABCAnalysis (skuMetrics : List SKUM) (th : Thresholds) :
    List ABCEntry :=
  let sortedSKUs := jsSortBy (fun a b => b.totalGeral ≤ a.totalGeral) skuMetrics
  let totalSum := (sortedSKUs.map SKUM.totalGeral).sum
  abcGo totalSum th sortedSKUs 0 0

end ForecastUtils

/-- JS `Math.round` (round half toward `+∞`) on an exact rational, result kept
as a rational. -/
def jsRoundQ (q : ℚ) : ℚ := ((⌊q + 1 / 2⌋ : ℤ) : ℚ)

/-- JS `Math.round` on a real. -/
noncomputable def jsRoundR (x : ℝ) : ℝ := ((⌊x + 1 / 2⌋ : ℤ) : ℝ)

/-- Cast a list of rationals to reals (series built by exact field sums enter
the `Math.sqrt`-based statistics as reals). -/
def ratList (l : List ℚ) : List ℝ := l.map fun q => (q : ℝ)

/-- `n·Σx² − (Σx)²`, the variance factor appearing under the square root of the
Pearson denominator; it is `0` exactly when the series has zero variance. -/
noncomputable def pvar (x : List ℝ) : ℝ :=
  (x.length : ℝ) * (x.map fun v => v * v).sum - x.sum * x.sum

section RealDefs

attribute [local instance] Classical.propDecidable

/-- The shared Pearson formula body (part_004 lines 288–297, identical inline in
the page module): `r = (n·Σxy − Σx·Σy) / sqrt((n·Σx² − (Σx)²)·(n·Σy² − (Σy)²))`,
returning 0 when the denominator is exactly 0. -/
noncomputable def pearsonFormula (x y : List ℝ) : ℝ :=
  let n : ℝ := x.length
  let sumX := x.sum
  let sumY := y.sum
  let sumXY := (List.zipWith (· * ·) x y).sum
  let sumX2 := (x.map fun v => v * v).sum
  let sumY2 := (y.map fun v => v * v).sum
  let numerator := n * sumXY - sumX * sumY
  let denominator := Real.sqrt ((n * sumX2 - sumX * sumX) * (n * sumY2 - sumY * sumY))
  if denominator = 0 then 0 else numerator / denominator

/-- `calculatePearsonCorrelation` from part_004 (lines 284–298): length-mismatch
guard returning 0, then the Pearson formula. -/
noncomputable def calculatePearsonCorrelation (x y : List ℝ) : ℝ :=
  if x.length ≠ y.length then 0 else pearsonFormula x y

end RealDefs

namespace ForecastUtils

/-- A row of `monthlySalesData` / `orderData` as consumed by the forecast utils:
a SKU description (`none` models a missing/empty, i.e. falsy, field), a date
abstracted to its month index (`none` models a missing date), and a raw
quantity. -/
structure OItem where
  DESCRICAO : Option String
  DTEMISSAO : Option ℤ
  QUANTIDADE : RawField
  deriving DecidableEq

/-- The month window `{now, now−1, …, now−W+1}` built by `calculateBaseMetrics`
(insertion order of the JS object keys). -/
def monthWindow (now : ℤ) (w : ℕ) : List ℤ :=
  (List.range w).map fun i => now - (i : ℤ)

/-- Total validated quantity of the items falling in month `m`
(the `monthMap[monthKey] += validateQuantity(...)` accumulation). -/
def sumMonth (items : List OItem) (m : ℤ) : ℚ :=
  ((items.filter fun it => it.DTEMISSAO == some m).map fun it =>
    validateQuantity it.QUANTIDADE).sum

/-- `Math.min(...l)` with the source's `length > 0 ? … : 0` guard. -/
def listMinD : List ℚ → ℚ
  | [] => 0
  | x :: xs => xs.foldl min x

/-- `Math.max(...l)` with the source's `length > 0 ? … : 0` guard. -/
def listMaxD : List ℚ → ℚ
  | [] => 0
  | x :: xs => xs.foldl max x

/-- `calculateBaseMetrics` from part_004 (lines 32–75).  The source anchors the
window at `new Date()`; the anchor month is the explicit parameter `now` here.
Records whose month falls outside the window are skipped (`hasOwnProperty`
guard).  `monthlyData` is sorted chronologically as in the source; the
display-only `monthName` is omitted. -/
noncomputable def calculateBaseMetrics (sku : String) (monthlyData : List OItem)
    (analysisWindow : ℕ) (now : ℤ) : SKUM :=
  let window := monthWindow now analysisWindow
  let monthlyValues := window.map (sumMonth monthlyData)
  let nonZeroValues := monthlyValues.filter fun val => 0 < val
  let totalGeral := monthlyValues.sum
  { sku := sku
    totalGeral := totalGeral
    vendaMinima := if nonZeroValues.length > 0 then listMinD nonZeroValues else 0
    vendaMaxima := if nonZeroValues.length > 0 then listMaxD nonZeroValues else 0
    mediaTotal := if nonZeroValues.length > 0 then
      nonZeroValues.sum / (nonZeroValues.length : ℚ) else 0
    mediaMensal := totalGeral / (analysisWindow : ℚ)
    monthlyData := jsSortBy (fun p q : ℤ × ℚ => p.1 ≤ q.1)
      (window.map fun m => (m, sumMonth monthlyData m)) }

/-- The `coberturaConfig` object `{ A, B, C }` (default `{ A: 2, B: 6, C: 6 }`). -/
structure Cobertura where
  A : ℚ
  B : ℚ
  C : ℚ
  deriving DecidableEq

/-- ABC entry decorated by `calculateInventoryRecommendations`. -/
structure RecEntry extends ABCEntry where
  cobertura : ℚ
  recomendacaoEstoque : ℚ
  deriving DecidableEq

/-- `calculateInventoryRecommendations` from part_004 (lines 111–122):
`coberturaConfig[classification] || 6` (the JS `||` turns a falsy — absent or
zero — lookup into 6), recommendation = monthly average × coverage, rounded. -/
def calculateInventoryRecommendations (skuMetrics : List ABCEntry) (cfg : Cobertura) :
    List RecEntry :=
  skuMetrics.map fun sku =>
    let sel := if sku.classification = "A" then cfg.A
      else if sku.classification = "B" then cfg.B
      else if sku.classification = "C" then cfg.C else 0
    let cobertura := if sel = 0 then 6 else sel
    { toABCEntry := sku, cobertura := cobertura,
      recomendacaoEstoque := jsRoundQ (sku.mediaMensal * cobertura) }

/-- `calculateStandardDeviation` from part_004 (lines 382–390): population
standard deviation, 0 for the empty list. -/
noncomputable def calculateStandardDeviation (values : List ℚ) : ℝ :=
  if values.length = 0 then 0
  else
    let mean := values.sum / (values.length : ℚ)
    let variance := ((values.map fun val => (val - mean) ^ 2).sum) / (values.length : ℚ)
    Real.sqrt ((variance : ℚ) : ℝ)

/-- One association record produced by `calculateCorrelationAssociations`
(the basket variant's `support`/`confidence`/`lift` fields do not occur on this
path). -/
structure Assoc where
  sku : String
  strength : ℝ
  correlation : ℝ
  type : String

/-- The SKU × month quantity matrix built from `orderData`
(`skuMonthMatrix[desc][month] += validateQuantity(...)`; absent entries read as
0 via `|| 0`). -/
def matrixVal (orderData : List OItem) (sku : String) (m : ℤ) : ℚ :=
  ((orderData.filter fun it => it.DESCRICAO == some sku && it.DTEMISSAO == some m).map
    fun it => validateQuantity it.QUANTIDADE).sum

/-- The sorted list of distinct months occurring in `orderData` rows having both
a SKU description and a date (`Array.from(monthSet).sort()`). -/
noncomputable def monthsOf (orderData : List OItem) : List ℤ :=
  jsSortBy (fun a b : ℤ => a ≤ b)
    ((orderData.filterMap fun it =>
      if it.DESCRICAO.isSome then it.DTEMISSAO else none).dedup)

/-- The monthly series of one SKU over the month axis `months`
(`months.map(month => skuMonthMatrix[sku]?.[month] || 0)`). -/
def seriesOf (orderData : List OItem) (months : List ℤ) (sku : String) : List ℚ :=
  months.map fun m => matrixVal orderData sku m

section AssocDefs

attribute [local instance] Classical.propDecidable

/-- The inner `forEach` of `calculateCorrelationAssociations` for one source
SKU: every other SKU whose absolute correlation reaches the threshold is pushed
with `strength = |correlation|`. -/
noncomputable def assocRaw (orderData : List OItem) (months : List ℤ)
    (skuMetrics : List RecEntry) (threshold : ℝ) (sku1 : RecEntry) : List Assoc :=
  skuMetrics.filterMap fun sku2 =>
    if sku1.sku = sku2.sku then none
    else
      let correlation := calculatePearsonCorrelation
        (ratList (seriesOf orderData months sku1.sku))
        (ratList (seriesOf orderData months sku2.sku))
      if threshold ≤ |correlation| then
        some { sku := sku2.sku, strength := |correlation|, correlation := correlation,
               type := "correlation" }
      else none

/-- `calculateCorrelationAssociations` from part_004 (lines 225–281): for every
source SKU, the qualifying partners sorted by strength descending and truncated
to `topK`.  The JS object keyed by SKU name is modelled as an association list
(SKU names are unique in the pipeline, coming from object keys). -/
noncomputable def calculateCorrelationAssociations (orderData : List OItem)
    (skuMetrics : List RecEntry) (threshold : ℝ) (topK : ℕ) :
    List (String × List Assoc) :=
  let months := monthsOf orderData
  skuMetrics.map fun sku1 =>
    (sku1.sku,
      (jsSortBy (fun a b : Assoc => b.strength ≤ a.strength)
        (assocRaw orderData months skuMetrics threshold sku1)).take topK)

end AssocDefs

/-- Internal driver record accumulated by `calculatePatternAdjustments`. -/
structure Driver where
  sku : String
  momentum : ℝ
  strength : ℝ
  weightedMomentum : ℝ
  type : String
  lastMonth : ℚ
  mean : ℚ
  stdDev : ℝ

/-- Driver record as surfaced in the output (top 3 by absolute weighted
momentum; `impact` is the weighted momentum × α × 100). -/
structure DriverOut where
  sku : String
  impact : ℝ
  strength : ℝ
  momentum : ℝ
  type : String

/-- Final per-SKU record of the pipeline.  In the no-association early return
the source omits `adjustment` and `averageWeightedMomentum`; they are modelled
as 0 there. -/
structure AdjEntry extends RecEntry where
  forecastAjustada : ℝ
  drivers : List DriverOut
  adjustment : ℝ
  averageWeightedMomentum : ℝ

/-- `monthlyValues[monthlyValues.length - 1]` (the guard ensures nonemptiness). -/
def lastD (l : List ℚ) : ℚ := l.getLast?.getD 0

section AdjustDefs

attribute [local instance] Classical.propDecidable

/-- The `forEach` over one SKU's associations (part_004 lines 320–348):
accumulates Σ(strength·momentum), Σstrength and the driver list.  Momentum is
the z-score `(lastMonth − mediaTotal) / stdDev`, 0 when `stdDev` is 0; the
association is skipped when the associated SKU is unknown or has an empty
monthly series. -/
noncomputable def driverStep (skuMetrics : List RecEntry) (acc : ℝ × ℝ × List Driver)
    (association : Assoc) : ℝ × ℝ × List Driver :=
  match skuMetrics.find? fun s => s.sku == association.sku with
  | none => acc
  | some aSku =>
    if aSku.monthlyData.isEmpty then acc
    else
      let monthlyValues := aSku.monthlyData.map Prod.snd
      let lastMonth := lastD monthlyValues
      let mean := aSku.mediaTotal
      let stdDev := calculateStandardDeviation monthlyValues
      let momentum := if 0 < stdDev then (((lastMonth - mean : ℚ) : ℝ)) / stdDev else 0
      let weightedMomentum := momentum * association.strength
      let d : Driver :=
        { sku := association.sku, momentum := momentum,
          strength := association.strength, weightedMomentum := weightedMomentum,
          type := association.type, lastMonth := lastMonth, mean := mean,
          stdDev := stdDev }
      (acc.1 + weightedMomentum, acc.2.1 + association.strength, acc.2.2 ++ [d])

/-- The accumulation over one SKU's association list. -/
noncomputable def driverFold (skuMetrics : List RecEntry) (assocs : List Assoc) :
    ℝ × ℝ × List Driver :=
  assocs.foldl (driverStep skuMetrics) (0, 0, [])

/-- The body of `calculatePatternAdjustments`' `map` for one SKU record
(part_004 lines 304–378). -/
noncomputable def adjustEntry (skuMetrics : List RecEntry)
    (associations : List (String × List Assoc)) (alpha : ℝ) (sku : RecEntry) : AdjEntry :=
    let skuAssociations := ((associations.find? fun p => p.1 == sku.sku).map Prod.snd).getD []
    if skuAssociations.isEmpty then
      { toRecEntry := sku, forecastAjustada := (sku.recomendacaoEstoque : ℝ), drivers := [],
        adjustment := 0, averageWeightedMomentum := 0 }
    else
      let res := driverFold skuMetrics skuAssociations
      let averageWeightedMomentum := if 0 < res.2.1 then res.1 / res.2.1 else 0
      let adjustment := alpha * averageWeightedMomentum
      let adjustmentFactor := 1 + adjustment
      let forecastAjustada := max 0 (jsRoundR ((sku.recomendacaoEstoque : ℝ) * adjustmentFactor))
      let sortedDrivers :=
        ((jsSortBy (fun d1 d2 : Driver => |d2.weightedMomentum| ≤ |d1.weightedMomentum|)
          res.2.2).take 3).map fun driver =>
          ({ sku := driver.sku, impact := driver.weightedMomentum * alpha * 100,
             strength := driver.strength, momentum := driver.momentum,
             type := driver.type } : DriverOut)
      { toRecEntry := sku, forecastAjustada := forecastAjustada, drivers := sortedDrivers,
        adjustment := adjustment, averageWeightedMomentum := averageWeightedMomentum }

/-- `calculatePatternAdjustments` from part_004 (lines 301–379). -/
noncomputable def calculatePatternAdjustments (skuMetrics : List RecEntry)
    (associations : List (String × List Assoc)) (alpha : ℝ) : List AdjEntry :=
  skuMetrics.map (adjustEntry skuMetrics associations alpha)

end AdjustDefs

/-- JS-object key list: first-occurrence order, duplicates dropped
(`skuGroups` construction in `calculateInventoryForecast`). -/
def firstDedup (l : List String) : List String :=
  l.foldl (fun acc x => if acc.contains x then acc else acc ++ [x]) []

/-- `calculateInventoryForecast` from part_004 (lines 393–459), on the
correlation path of `calculateAssociationPatterns` (no basket `PEDIDO` field in
`orderData`): group rows by SKU, base metrics, ABC, coverage recommendations,
correlation associations, pattern adjustments.  The summary block and console
logging are omitted; the per-SKU result list is returned. -/
noncomputable def calculateInventoryForecast (monthlySalesData orderData : List OItem)
    (analysisWindow : ℕ) (now : ℤ) (th : Thresholds) (cov : Cobertura)
    (threshold : ℝ) (topK : ℕ) (alpha : ℝ) : List AdjEntry :=
  let names := firstDedup (monthlySalesData.filterMap OItem.DESCRICAO)
  let skuMetrics := names.map fun name =>
    calculateBaseMetrics name (monthlySalesData.filter fun it => it.DESCRICAO == some name)
      analysisWindow now
  let abcResults := calculateABCAnalysis skuMetrics th
  let recommendations := calculateInventoryRecommendations abcResults cov
  let associations := calculateCorrelationAssociations orderData recommendations threshold topK
  calculatePatternAdjustments recommendations associations alpha

end ForecastUtils


/-! ## InventoryForecast.jsx page module -/

namespace Page

/-- A processed SKU row as consumed by `calculateSafeMargin`: the six month
fields `julho … dezembro` it reads, as possibly-special JS numbers (the guard in
the source explicitly handles a `NaN` average).  The remaining row fields are
not read by this function and are omitted. -/
structure MSku where
  julho : JSN
  agosto : JSN
  setembro : JSN
  outubro : JSN
  novembro : JSN
  dezembro : JSN
  deriving DecidableEq

/-- Result object of `calculateSafeMargin`. -/
structure SafeMarginResult where
  avgLast6Months : JSN
  isAboveThreshold : Bool
  safeMargin : JSN
  recommendation : String
  marginType : String
  threshold : ℚ
  deriving DecidableEq

/-- The `last6Months` average computed by `calculateSafeMargin`. -/
def avgLast6 (sku : MSku) : JSN :=
  (((((sku.julho.add sku.agosto).add sku.setembro).add sku.outubro).add
    sku.novembro).add sku.dezembro).divPos 6

/-- `calculateSafeMargin` from InventoryForecast.jsx (lines 210–256): zero or
`NaN` trailing average returns the `none` margin with an explicit reason;
otherwise the safe (×2) or conservative (×1.5) margin according to the
threshold. -/
def calculateSafeMargin (sku : MSku) (autoThreshold : ℚ) : SafeMarginResult :=
  let avgLast6Months := avgLast6 sku
  if avgLast6Months == .fin 0 || avgLast6Months.isNaN then
    { avgLast6Months := .fin 0, isAboveThreshold := false, safeMargin := .fin 0,
      recommendation := "Sem vendas nos últimos 6 meses", marginType := "none",
      threshold := autoThreshold }
  else
    let isAboveThreshold := avgLast6Months.geQ autoThreshold
    if isAboveThreshold then
      { avgLast6Months := avgLast6Months, isAboveThreshold := isAboveThreshold,
        safeMargin := avgLast6Months.mulPos 2,
        recommendation := "Margem Segura (2 meses de vendas)", marginType := "safe",
        threshold := autoThreshold }
    else
      { avgLast6Months := avgLast6Months, isAboveThreshold := isAboveThreshold,
        safeMargin := avgLast6Months.mulPos (3 / 2),
        recommendation := "Margem Conservadora (1.5 meses)", marginType := "conservative",
        threshold := autoThreshold }

/-- A SKU row as consumed by `calculateABCClassification` (only `totalGeral` and
the spread-through identity are read; the other row fields are omitted). -/
structure PSku where
  sku : String
  totalGeral : ℚ
  deriving DecidableEq

/-- Row decorated with `curva` and `cumulativePercent` (the latter can be `NaN`
or `±Infinity` because the division by `totalSales` is unguarded). -/
structure PSkuC extends PSku where
  curva : String
  cumulativePercent : JSN
  deriving DecidableEq

/-- The classification `map` of `calculateABCClassification` (lines 266–279):
`cumulativePercent += totalGeral / totalSales * 100` with no zero-total guard,
then the 80 / 95 rule with JS comparison semantics (`NaN ≤ c` is false). -/
def abcClassifyGo (totalSales : ℚ) : List PSku → JSN → List PSkuC
  | [], _ => []
  | item :: rest, cum =>
    let cum2 := cum.add ((jdiv item.totalGeral totalSales).mulPos 100)
    let curva := if cum2.leQ 80 then "A" else if cum2.leQ 95 then "B" else "C"
    { toPSku := item, curva := curva, cumulativePercent := cum2 } ::
      abcClassifyGo totalSales rest cum2

/-- `calculateABCClassification` from InventoryForecast.jsx (lines 259–280). -/
noncomputable def calculateABCClassification (skuData : List PSku) : List PSkuC :=
  let sortedData := jsSortBy (fun a b : PSku => b.totalGeral ≤ a.totalGeral) skuData
  let totalSales := (sortedData.map PSku.totalGeral).sum
  abcClassifyGo totalSales sortedData (.fin 0)

/-- A processed SKU row as consumed by `calculateCorrelation` and
`generateKitRecommendations`: the twelve month fields (`março` is transliterated
to `marco`), totals and classification flags. -/
structure KSku where
  sku : String
  janeiro : ℝ
  fevereiro : ℝ
  marco : ℝ
  abril : ℝ
  maio : ℝ
  junho : ℝ
  julho : ℝ
  agosto : ℝ
  setembro : ℝ
  outubro : ℝ
  novembro : ℝ
  dezembro : ℝ
  totalGeral : ℝ
  mediaMensal : ℝ
  curva : String
  isBestSeller : Bool

/-- The `salesA` / `salesB` arrays of `calculateCorrelation`: the twelve month
fields in calendar order. -/
def salesArray (p : KSku) : List ℝ :=
  [p.janeiro, p.fevereiro, p.marco, p.abril, p.maio, p.junho,
   p.julho, p.agosto, p.setembro, p.outubro, p.novembro, p.dezembro]

/-- `calculateCorrelation` from InventoryForecast.jsx (lines 85–108): the
Pearson formula applied to the two month arrays (both have length 12, so no
length guard appears in the source). -/
noncomputable def calculateCorrelation (productA productB : KSku) : ℝ :=
  pearsonFormula (salesArray productA) (salesArray productB)

/-- Lexicographic code-unit comparison of two strings, as used by the default
JS `Array.prototype.sort()` on `[skuA, skuB]`. -/
def lexLe : List Char → List Char → Bool
  | [], _ => true
  | _ :: _, [] => false
  | a :: as, b :: bs => if a = b then lexLe as bs else decide (a < b)

/-- `[productA.sku, productB.sku].sort().join('|')` — the canonical unordered
pair key. -/
def pairKey (a b : String) : String :=
  if lexLe a.toList b.toList then a ++ "|" ++ b else b ++ "|" ++ a

/-- One member of a kit recommendation. -/
structure KitProd where
  sku : String
  sales : ℝ
  classification : String

/-- One kit recommendation. -/
structure Kit where
  id : String
  products : List KitProd
  correlation : ℝ
  totalSales : ℝ
  avgMonthlySales : ℝ
  recommendedStock : ℝ
  potential : ℝ
  type : String

/-- Mutable state of the pair enumeration loop: the `recommendations` array, the
`processedPairs` set (modelled as the list of inserted keys) and the
`combinationCount` budget counter. -/
structure KitState where
  recommendations : List Kit
  processedPairs : List String
  combinationCount : ℕ

section KitDefs

attribute [local instance] Classical.propDecidable

/-- One inner-loop body of `generateKitRecommendations` (lines 126–171): skip
already-processed pair keys, compute the correlation, and push a kit when it
reaches the fixed significance cutoff 0.576.  (The source also computes an
unused `lowerProduct`; it is omitted.) -/
noncomputable def processPair (productA productB : KSku) (st : KitState) : KitState :=
  let key := pairKey productA.sku productB.sku
  if key ∈ st.processedPairs then st
  else
    let st2 := { st with processedPairs := st.processedPairs ++ [key] }
    let correlation := calculateCorrelation productA productB
    if (0.576 : ℝ) ≤ correlation then
      let kitTotalSales := productA.totalGeral + productB.totalGeral
      let kitAvgMonthly := (productA.mediaMensal + productB.mediaMensal) / 2
      let higherProduct := if productB.mediaMensal < productA.mediaMensal then productA
        else productB
      let baseStock := higherProduct.mediaMensal * 2.5
      let correlationBonus : ℝ := if (0.8 : ℝ) ≤ correlation then 1.3
        else if (0.7 : ℝ) ≤ correlation then 1.2 else 1.1
      let kitRecommendedStock := jsRoundR (baseStock * correlationBonus)
      let impactMultiplier : ℝ := if (0.8 : ℝ) ≤ correlation then 1.5
        else if (0.7 : ℝ) ≤ correlation then 1.3 else 1.1
      let potential := kitAvgMonthly * correlation * 12 * impactMultiplier
      let kit : Kit :=
        { id := "kit_" ++ toString (st2.recommendations.length + 1),
          products := [{ sku := productA.sku, sales := productA.totalGeral,
                         classification := productA.curva },
                       { sku := productB.sku, sales := productB.totalGeral,
                         classification := productB.curva }],
          correlation := correlation, totalSales := kitTotalSales,
          avgMonthlySales := kitAvgMonthly, recommendedStock := kitRecommendedStock,
          potential := jsRoundR potential, type := "duo" }
      { st2 with recommendations := st2.recommendations ++ [kit] }
    else st2

/-- The inner `for j` loop over the remaining top performers, bounded by the
500-combination budget (the counter is incremented before each pair is
examined). -/
noncomputable def kitInner (productA : KSku) : List KSku → KitState → KitState
  | [], st => st
  | productB :: rest, st =>
    if st.combinationCount < 500 then
      kitInner productA rest
        (processPair productA productB { st with combinationCount := st.combinationCount + 1 })
    else st

/-- The outer `for i` loop. -/
noncomputable def kitOuter : List KSku → KitState → KitState
  | [], st => st
  | productA :: rest, st =>
    if st.combinationCount < 500 then kitOuter rest (kitInner productA rest st) else st

/-- `topPerformers` (lines 116–118): best sellers / class-A rows, capped at
`min(30, ceil(length · 0.1))` (the float product `length * 0.1` is modelled by
the exact `⌈length/10⌉`). -/
def topPerformers (skuData : List KSku) : List KSku :=
  (skuData.filter fun s => s.isBestSeller || s.curva == "A").take
    (min 30 ((skuData.length + 9) / 10))

/-- Entry of the secondary versatile-product list. -/
structure ProductRec where
  sku : String
  classification : String
  totalSales : ℝ
  kitCount : ℕ
  kits : List String

/-- One `productUsage` map update (lines 183–198), preserving JS `Map`
insertion order. -/
def updUsage (acc : List ProductRec) (kid : String) (p : KitProd) : List ProductRec :=
  if acc.any fun r => r.sku == p.sku then
    acc.map fun r =>
      if r.sku == p.sku then { r with kitCount := r.kitCount + 1, kits := r.kits ++ [kid] }
      else r
  else
    acc ++ [{ sku := p.sku, classification := p.classification, totalSales := p.sales,
              kitCount := 1, kits := [kid] }]

/-- `generateKitRecommendations` from InventoryForecast.jsx (lines 111–207):
pair enumeration over the top performers with the dedup set and combination
budget, sort by potential descending, top 20; then the versatile-product tally
(kit membership > 1), sorted by kit count descending, top 15. -/
noncomputable def generateKitRecommendations (skuData : List KSku) :
    List Kit × List ProductRec :=
  let tops := topPerformers skuData
  let st := kitOuter tops
    { recommendations := [], processedPairs := [], combinationCount := 0 }
  let sortedRecommendations :=
    (jsSortBy (fun a b : Kit => b.potential ≤ a.potential) st.recommendations).take 20
  let productUsage := sortedRecommendations.foldl
    (fun acc kit => kit.products.foldl (fun acc2 p => updUsage acc2 kit.id p) acc) []
  let productRecommendations :=
    (jsSortBy (fun a b : ProductRec => b.kitCount ≤ a.kitCount)
      (productUsage.filter fun p => 1 < p.kitCount)).take 15
  (sortedRecommendations, productRecommendations)

end KitDefs

end Page

/-! ## Specification-side definitions and concrete test inputs -/

/-- The class label as the spec's pure function of the cumulative percentage and
the configured thresholds (A while `≤ a`, B while `≤ a + b`, else C). -/
def classOfThresholds (th : ForecastUtils.Thresholds) (cum : ℚ) : String :=
  if cum ≤ th.a then "A" else if cum ≤ th.a + th.b then "B" else "C"

/-- The code's `mediaTotal` formula: mean of the positive values of a series
(0 when there are none). -/
def mediaTotalOf (vals : List ℚ) : ℚ :=
  let nz := vals.filter fun v => 0 < v
  if nz.length > 0 then nz.sum / (nz.length : ℚ) else 0

/-- The spec's "mean of the full monthly series". -/
def listMean (vals : List ℚ) : ℚ := vals.sum / (vals.length : ℚ)

/-- A SKU-metrics record with the given name and grand total (the other fields
are irrelevant to ABC classification). -/
def mkSKUM (name : String) (t : ℚ) : ForecastUtils.SKUM :=
  { sku := name, totalGeral := t, vendaMinima := 0, vendaMaxima := 0,
    mediaTotal := 0, mediaMensal := 0, monthlyData := [] }

/-- The canonical sorted pair key of a kit's two products. -/
def kitKey (k : Page.Kit) : String :=
  match k.products with
  | [a, b] => Page.pairKey a.sku b.sku
  | _ => ""

/-- The unordered pair of SKUs of a kit. -/
def kitPairOf (k : Page.Kit) : Sym2 String :=
  match k.products with
  | [a, b] => Sym2.mk (a.sku, b.sku)
  | _ => Sym2.mk ("", "")

/-- Loop invariant of the pair enumeration: every accumulated kit has exactly
two products and its pair key is in the processed set, and the accumulated kits
have pairwise distinct pair keys. -/
def KitInv (st : Page.KitState) : Prop :=
  (∀ k ∈ st.recommendations, (∃ a b, k.products = [a, b]) ∧
    kitKey k ∈ st.processedPairs) ∧
  st.recommendations.Pairwise fun k1 k2 => kitKey k1 ≠ kitKey k2

/-- One sales row: SKU "S2" sold quantity 2 in month 1. -/
def c3items : List ForecastUtils.OItem :=
  [{ DESCRICAO := some "S2", DTEMISSAO := some 1, QUANTIDADE := .fstr "2" }]

/-- The base metrics of SKU "S2" over a 2-month window anchored at month 1:
its stored monthly series is `[0, 2]` (nothing in month 0, quantity 2 in
month 1), so `mediaTotal = 2` (mean over non-zero months) while the full-series
mean is 1. -/
noncomputable def c3base : ForecastUtils.SKUM :=
  ForecastUtils.calculateBaseMetrics "S2" c3items 2 1

/-- A plain class-A recommendations record for SKU "S1". -/
def c3rec1 : ForecastUtils.RecEntry :=
  { toABCEntry :=
      { toSKUM := mkSKUM "S1" 9, percentage := 0, cumulativePercentage := 0,
        classification := "A", rank := 1 },
    cobertura := 2, recomendacaoEstoque := 0 }

/-- The recommendations record carrying the base metrics of SKU "S2". -/
noncomputable def c3rec2 : ForecastUtils.RecEntry :=
  { toABCEntry :=
      { toSKUM := c3base, percentage := 0, cumulativePercentage := 0,
        classification := "A", rank := 2 },
    cobertura := 2, recomendacaoEstoque := 0 }

/-- One association: "S1" is associated to "S2" with strength 1. -/
def c3a : ForecastUtils.Assoc :=
  { sku := "S2", strength := 1, correlation := 1, type := "correlation" }

/-- The association map of the counterexample. -/
def c3assoc : List (String × List ForecastUtils.Assoc) := [("S1", [c3a])]

/-- A minimal recommendations record with the given SKU name. -/
def mkRec (name : String) : ForecastUtils.RecEntry :=
  { toABCEntry :=
      { toSKUM := mkSKUM name 0, percentage := 0, cumulativePercentage := 0,
        classification := "A", rank := 1 },
    cobertura := 2, recomendacaoEstoque := 0 }

/-- Order rows: three SKUs, each selling 1 in month 10 and 2 in month 11 —
identical series, so every ordered pair has correlation exactly 1. -/
def c10od : List ForecastUtils.OItem :=
  [{ DESCRICAO := some "S1", DTEMISSAO := some 10, QUANTIDADE := .fstr "1" },
   { DESCRICAO := some "S1", DTEMISSAO := some 11, QUANTIDADE := .fstr "2" },
   { DESCRICAO := some "S2", DTEMISSAO := some 10, QUANTIDADE := .fstr "1" },
   { DESCRICAO := some "S2", DTEMISSAO := some 11, QUANTIDADE := .fstr "2" },
   { DESCRICAO := some "S3", DTEMISSAO := some 10, QUANTIDADE := .fstr "1" },
   { DESCRICAO := some "S3", DTEMISSAO := some 11, QUANTIDADE := .fstr "2" }]

/-- The metrics pool of the counterexample. -/
def c10metrics : List ForecastUtils.RecEntry := [mkRec "S1", mkRec "S2", mkRec "S3"]

/-! ## Stable-sort lemmas -/

section StableSortLemmas

attribute [local instance] Classical.propDecidable

theorem jsSortBy_perm (r : α → α → Prop) (l : List α) : (jsSortBy r l).Perm l :=
  List.perm_insertionSort r l

theorem jsSortBy_of_pairwise {r : α → α → Prop} {l : List α} (h : l.Pairwise r) :
    jsSortBy r l = l := by
  unfold jsSortBy
  exact List.Sorted.insertionSort_eq h

theorem jsSortBy_length (r : α → α → Prop) (l : List α) :
    (jsSortBy r l).length = l.length :=
  (jsSortBy_perm r l).length_eq

end StableSortLemmas

/-! ## Helper lemmas: the normalizer never produces a negative value -/

theorem parsePFbody_one_nonneg (cs : List Char) : 0 ≤ (parsePFbody 1 cs).getD 0 := by
  simp only [parsePFbody]
  split
  · simp
  · simp only [Option.getD_some, one_mul]
    positivity

theorem mem_replaceFirstComma {c : Char} :
    ∀ {l : List Char}, c ∈ replaceFirstComma l → c ∈ l ∨ c = '.'
  | [], h => by simp [replaceFirstComma] at h
  | c2 :: rest, h => by
    by_cases hc : c2 = ','
    · simp only [replaceFirstComma, if_pos hc] at h
      rcases List.mem_cons.mp h with h1 | h1
      · exact Or.inr h1
      · exact Or.inl (List.mem_cons_of_mem _ h1)
    · simp only [replaceFirstComma, if_neg hc] at h
      rcases List.mem_cons.mp h with h1 | h1
      · exact Or.inl (h1 ▸ List.mem_cons_self _ _)
      · rcases mem_replaceFirstComma h1 with h2 | h2
        · exact Or.inl (List.mem_cons_of_mem _ h2)
        · exact Or.inr h2

theorem cleanChars_no_minus (s : String) : '-' ∉ cleanChars s := by
  intro h
  rcases List.mem_filter.mp h with ⟨-, hpred⟩
  exact absurd hpred (by decide)

theorem parsePF_clean_nonneg (s : String) :
    0 ≤ (parsePF (replaceFirstComma (cleanChars s))).getD 0 := by
  have hm : '-' ∉ replaceFirstComma (cleanChars s) := by
    intro h
    rcases mem_replaceFirstComma h with h1 | h2
    · exact cleanChars_no_minus s h1
    · exact absurd h2 (by decide)
  rcases hcs : replaceFirstComma (cleanChars s) with - | ⟨c, rest⟩
  · simpa [parsePF] using parsePFbody_one_nonneg []
  · rw [hcs] at hm
    have hc : c ≠ '-' := fun h => hm (h ▸ List.mem_cons_self _ _)
    have hred : parsePF (c :: rest) = parsePFbody 1 (c :: rest) ∨
        parsePF (c :: rest) = parsePFbody 1 rest := by
      unfold parsePF
      split
      · next heq =>
        injection heq with h1 h2
        exact absurd h1 hc
      · next heq =>
        injection heq with h1 h2
        exact Or.inr (by rw [h2])
      · exact Or.inl rfl
    rcases hred with h | h
    · rw [h]; exact parsePFbody_one_nonneg _
    · rw [h]; exact parsePFbody_one_nonneg _

/-! ## Claim C4 -/

/-- C4 (counterexample): the numeric string "-5" — a negative numeric value with
a leading minus sign — is *not* returned unchanged by record normalization: the
character-stripping regex removes the minus sign and `validateQuantity` returns
`5`, not `-5`. -/
theorem C4_cex_minus_stripped :
    validateQuantity (.fstr "-5") = 5 ∧ (5 : ℚ) ≠ -5 := by
  constructor
  · simp +decide [validateQuantity, cleanChars, replaceFirstComma, parsePF, parsePFbody]
    norm_num [show digitsVal ['5'] = 5 by decide, show digitsVal [] = 0 by decide]
  · norm_num

/-- C4 (amended): record normalization never retains a negative value — the
stripping regex `[^\d.,]` deletes the minus sign before parsing, so
`validateQuantity` returns a non-negative number for every input (a negative
number or negative numeric string yields its absolute value, not the value
itself). -/
theorem C4_validateQuantity_nonneg (v : RawField) : 0 ≤ validateQuantity v := by
  cases v with
  | fnull => simp [validateQuantity]
  | fundef => simp [validateQuantity]
  | fstr s =>
    simp only [validateQuantity]
    split
    · exact le_refl 0
    · exact parsePF_clean_nonneg s
  | fnum q => exact parsePF_clean_nonneg (jsNumToString q)

/-! ## Claim C7 -/

/-- C7 (counterexample): when `LINE_AMOUNT` is absent and the quantity/unit
fields are unparseable (so their product is 0) but the backup fields
`QUANTIDADE_NUM`/`VRLUNIT_NUM` are truthy, `calculateLineAmount` returns the
backup product (here 6) — not `quantity × unitValue` (here 0) as the claim
states. -/
theorem C7_cex_backup_branch :
    calculateLineAmount
        { LINE_AMOUNT := .fnull, QUANTIDADE := .fstr "abc", VRLUNIT := .fstr "x",
          QUANTIDADE_NUM := .fnum 2, VRLUNIT_NUM := .fnum 3 } = some 6 ∧
    validateQuantity (.fstr "abc") * validateUnitValue (.fstr "x") = 0 ∧
    (6 : ℚ) ≠ 0 := by
  refine ⟨?_, ?_, by norm_num⟩
  · simp +decide [calculateLineAmount, validateQuantity, validateUnitValue, cleanChars,
      replaceFirstComma, parsePF, parsePFbody, truthy, jsNumber]
    norm_num
  · simp +decide [validateQuantity, validateUnitValue, cleanChars,
      replaceFirstComma, parsePF, parsePFbody]

/-- C7 (amended): `calculateLineAmount` returns `LINE_AMOUNT` verbatim when it
is non-null, non-undefined and `Number`-coercible; otherwise it returns
`validateQuantity(QUANTIDADE) × validateUnitValue(VRLUNIT)` — *except* that when
this product is 0 and both backup fields `QUANTIDADE_NUM` and `VRLUNIT_NUM` are
truthy, it returns `Number(QUANTIDADE_NUM) × Number(VRLUNIT_NUM)` instead.
When everything is unparseable (and the backup branch is not taken) the result
is 0.  The function is total, so no exception is ever raised. -/
theorem C7_calculateLineAmount_spec :
    (∀ (item : Item) (q : ℚ), item.LINE_AMOUNT ≠ .fnull → item.LINE_AMOUNT ≠ .fundef →
      jsNumber item.LINE_AMOUNT = some q → calculateLineAmount item = some q) ∧
    (∀ item : Item,
      (item.LINE_AMOUNT = .fnull ∨ item.LINE_AMOUNT = .fundef ∨
        jsNumber item.LINE_AMOUNT = none) →
      validateQuantity item.QUANTIDADE * validateUnitValue item.VRLUNIT ≠ 0 →
      calculateLineAmount item =
        some (validateQuantity item.QUANTIDADE * validateUnitValue item.VRLUNIT)) ∧
    (∀ item : Item,
      (item.LINE_AMOUNT = .fnull ∨ item.LINE_AMOUNT = .fundef ∨
        jsNumber item.LINE_AMOUNT = none) →
      validateQuantity item.QUANTIDADE * validateUnitValue item.VRLUNIT = 0 →
      ¬(truthy item.QUANTIDADE_NUM = true ∧ truthy item.VRLUNIT_NUM = true) →
      calculateLineAmount item = some 0) ∧
    (∀ (item : Item) (a b : ℚ),
      (item.LINE_AMOUNT = .fnull ∨ item.LINE_AMOUNT = .fundef ∨
        jsNumber item.LINE_AMOUNT = none) →
      validateQuantity item.QUANTIDADE * validateUnitValue item.VRLUNIT = 0 →
      truthy item.QUANTIDADE_NUM = true → truthy item.VRLUNIT_NUM = true →
      jsNumber item.QUANTIDADE_NUM = some a → jsNumber item.VRLUNIT_NUM = some b →
      calculateLineAmount item = some (a * b)) := by
  have hfail : ∀ item : Item,
      (item.LINE_AMOUNT = .fnull ∨ item.LINE_AMOUNT = .fundef ∨
        jsNumber item.LINE_AMOUNT = none) →
      ¬(item.LINE_AMOUNT ≠ .fnull ∧ item.LINE_AMOUNT ≠ .fundef ∧
        (jsNumber item.LINE_AMOUNT).isSome) := by
    rintro item (h | h | h) ⟨h1, h2, h3⟩
    · exact h1 h
    · exact h2 h
    · rw [h] at h3; exact absurd h3 (by simp)
  refine ⟨?_, ?_, ?_, ?_⟩
  · intro item q h1 h2 h3
    rw [calculateLineAmount, if_pos ⟨h1, h2, by rw [h3]; rfl⟩]
    exact h3
  · intro item hbad hne
    rw [calculateLineAmount, if_neg (hfail item hbad)]
    simp only
    rw [if_neg]
    rintro ⟨hz, -⟩
    exact hne hz
  · intro item hbad hz htr
    rw [calculateLineAmount, if_neg (hfail item hbad)]
    simp only
    rw [if_neg, hz]
    rintro ⟨-, ht1, ht2⟩
    exact htr ⟨ht1, ht2⟩
  · intro item a b hbad hz ht1 ht2 ha hb
    rw [calculateLineAmount, if_neg (hfail item hbad)]
    simp only
    rw [if_pos ⟨hz, ht1, ht2⟩, ha, hb]

/-- C7 witness: the four branches of `C7_calculateLineAmount_spec` at concrete
records. -/
theorem C7_spec_witness :
    calculateLineAmount
        { LINE_AMOUNT := .fnum 42, QUANTIDADE := .fnull, VRLUNIT := .fnull,
          QUANTIDADE_NUM := .fnull, VRLUNIT_NUM := .fnull } = some 42 ∧
    calculateLineAmount
        { LINE_AMOUNT := .fundef, QUANTIDADE := .fstr "2", VRLUNIT := .fstr "3",
          QUANTIDADE_NUM := .fnull, VRLUNIT_NUM := .fnull } =
      some (validateQuantity (.fstr "2") * validateUnitValue (.fstr "3")) ∧
    calculateLineAmount
        { LINE_AMOUNT := .fnull, QUANTIDADE := .fnull, VRLUNIT := .fnull,
          QUANTIDADE_NUM := .fnull, VRLUNIT_NUM := .fnull } = some 0 ∧
    calculateLineAmount
        { LINE_AMOUNT := .fnull, QUANTIDADE := .fstr "x", VRLUNIT := .fstr "y",
          QUANTIDADE_NUM := .fnum 4, VRLUNIT_NUM := .fnum 5 } = some (4 * 5) := by
  refine ⟨?_, ?_, ?_, ?_⟩
  · exact C7_calculateLineAmount_spec.1 _ 42 (by simp) (by simp) rfl
  · refine C7_calculateLineAmount_spec.2.1 _ (Or.inr (Or.inl rfl)) ?_
    have h2 : validateQuantity (.fstr "2") = 2 := by
      simp +decide [validateQuantity, cleanChars, replaceFirstComma, parsePF, parsePFbody]
      norm_num [show digitsVal ['2'] = 2 by decide, show digitsVal [] = 0 by decide]
    have h3 : validateUnitValue (.fstr "3") = 3 := by
      simp +decide [validateUnitValue, cleanChars, replaceFirstComma, parsePF, parsePFbody]
      norm_num [show digitsVal ['3'] = 3 by decide, show digitsVal [] = 0 by decide]
    rw [h2, h3]
    norm_num
  · refine C7_calculateLineAmount_spec.2.2.1 _ (Or.inl rfl) (by simp [validateQuantity,
      validateUnitValue]) ?_
    rintro ⟨h, -⟩
    exact absurd h (by simp [truthy])
  · refine C7_calculateLineAmount_spec.2.2.2 _ 4 5 (Or.inl rfl) ?_ ?_ ?_ rfl rfl
    · have hx : validateQuantity (.fstr "x") = 0 := by
        simp +decide [validateQuantity, cleanChars, replaceFirstComma, parsePF, parsePFbody]
      have hy : validateUnitValue (.fstr "y") = 0 := by
        simp +decide [validateUnitValue, cleanChars, replaceFirstComma, parsePF, parsePFbody]
      rw [hx, hy, mul_zero]
    · simp [truthy]
    · simp [truthy]

/-! ## Claim C8 -/

/-- C8: whenever the trailing six-month average is 0 or `NaN`, the safety-margin
calculator returns `marginType = "none"`, a recommended safety stock of 0 and
the explicit no-sales reason string — never the safe or conservative label.
(The function is total, so no exception is raised.) -/
theorem C8_safe_margin_none (sku : Page.MSku) (autoThreshold : ℚ)
    (h : Page.avgLast6 sku = .fin 0 ∨ Page.avgLast6 sku = .nan) :
    (Page.calculateSafeMargin sku autoThreshold).marginType = "none" ∧
    (Page.calculateSafeMargin sku autoThreshold).safeMargin = .fin 0 ∧
    (Page.calculateSafeMargin sku autoThreshold).recommendation =
      "Sem vendas nos últimos 6 meses" ∧
    (Page.calculateSafeMargin sku autoThreshold).marginType ≠ "safe" ∧
    (Page.calculateSafeMargin sku autoThreshold).marginType ≠ "conservative" := by
  have hcond : (Page.avgLast6 sku == .fin 0 || (Page.avgLast6 sku).isNaN) = true := by
    rcases h with h | h <;> simp [h, JSN.isNaN]
  rw [Page.calculateSafeMargin]
  rw [if_pos hcond]
  refine ⟨rfl, rfl, rfl, ?_, ?_⟩ <;> simp

/-- C8 witness: a SKU with zero sales in all six trailing months. -/
theorem C8_witness :
    Page.avgLast6
        { julho := .fin 0, agosto := .fin 0, setembro := .fin 0, outubro := .fin 0,
          novembro := .fin 0, dezembro := .fin 0 } = .fin 0 ∧
    (Page.calculateSafeMargin
        { julho := .fin 0, agosto := .fin 0, setembro := .fin 0, outubro := .fin 0,
          novembro := .fin 0, dezembro := .fin 0 } 10).marginType = "none" ∧
    (Page.calculateSafeMargin
        { julho := .fin 0, agosto := .fin 0, setembro := .fin 0, outubro := .fin 0,
          novembro := .fin 0, dezembro := .fin 0 } 10).safeMargin = .fin 0 := by
  have havg : Page.avgLast6
      ({ julho := .fin 0, agosto := .fin 0, setembro := .fin 0, outubro := .fin 0,
         novembro := .fin 0, dezembro := .fin 0 } : Page.MSku) = .fin 0 := by
    simp only [Page.avgLast6, JSN.add, JSN.divPos]
    norm_num
  have hmain := C8_safe_margin_none
    { julho := .fin 0, agosto := .fin 0, setembro := .fin 0, outubro := .fin 0,
      novembro := .fin 0, dezembro := .fin 0 } 10 (Or.inl havg)
  exact ⟨havg, hmain.1, hmain.2.1⟩

/-! ## Helper lemmas: sums of scaled series -/

theorem listSum_map_mul (c : ℝ) (x : List ℝ) : (x.map fun v => c * v).sum = c * x.sum := by
  induction x with
  | nil => simp
  | cons a l ih => simp [ih, mul_add]

theorem listSum_map_mul_sq (c : ℝ) (x : List ℝ) :
    ((x.map fun v => c * v).map fun v => v * v).sum = c ^ 2 * (x.map fun v => v * v).sum := by
  induction x with
  | nil => simp
  | cons a l ih =>
    simp only [List.map_cons, List.sum_cons, ih]
    ring

theorem listSum_zip_self_mul (c : ℝ) (x : List ℝ) :
    (List.zipWith (· * ·) x (x.map fun v => c * v)).sum = c * (x.map fun v => v * v).sum := by
  induction x with
  | nil => simp
  | cons a l ih =>
    simp only [List.map_cons, List.zipWith_cons_cons, List.sum_cons, ih]
    ring

theorem listSum_zip_self (x : List ℝ) :
    (List.zipWith (· * ·) x x).sum = (x.map fun v => v * v).sum := by
  induction x with
  | nil => simp
  | cons a l ih => simp [ih]

/-! ## Pearson formula lemmas -/

theorem pearsonFormula_scaled (x : List ℝ) (c : ℝ) (hc : 0 < c) (hv : 0 < pvar x) :
    pearsonFormula x (x.map fun v => c * v) = 1 := by
  have hpv : pvar x = (x.length : ℝ) * (x.map fun v => v * v).sum - x.sum * x.sum := rfl
  simp only [pearsonFormula, listSum_map_mul, listSum_map_mul_sq, listSum_zip_self_mul,
    List.length_map]
  have hnum : (x.length : ℝ) * (c * (x.map fun v => v * v).sum) - x.sum * (c * x.sum) =
      c * pvar x := by rw [hpv]; ring
  have hden : ((x.length : ℝ) * (x.map fun v => v * v).sum - x.sum * x.sum) *
      ((x.length : ℝ) * (c ^ 2 * (x.map fun v => v * v).sum) - c * x.sum * (c * x.sum)) =
      (c * pvar x) ^ 2 := by rw [hpv]; ring
  rw [hnum, hden, Real.sqrt_sq (by positivity)]
  have hne : c * pvar x ≠ 0 := by positivity
  rw [if_neg hne, div_self hne]

theorem pearsonFormula_self (x : List ℝ) (hv : 0 < pvar x) : pearsonFormula x x = 1 := by
  have hpv : pvar x = (x.length : ℝ) * (x.map fun v => v * v).sum - x.sum * x.sum := rfl
  simp only [pearsonFormula, listSum_zip_self]
  rw [← hpv, Real.sqrt_mul_self hv.le]
  rw [if_neg hv.ne.symm, div_self hv.ne.symm]

theorem calculatePearson_self (x : List ℝ) (hv : 0 < pvar x) :
    calculatePearsonCorrelation x x = 1 := by
  rw [calculatePearsonCorrelation, if_neg (by simp)]
  exact pearsonFormula_self x hv

theorem pearsonFormula_comm (x y : List ℝ) (hlen : x.length = y.length) :
    pearsonFormula x y = pearsonFormula y x := by
  simp only [pearsonFormula]
  rw [List.zipWith_comm_of_comm _ mul_comm y x, hlen,
    mul_comm y.sum x.sum,
    mul_comm ((y.length : ℝ) * (y.map fun v => v * v).sum - y.sum * y.sum)
      ((y.length : ℝ) * (x.map fun v => v * v).sum - x.sum * x.sum)]

/-! ## Claim C5 -/

/-- C5: if either series of an equal-length pair has zero variance (the code's
variance factor `n·Σx² − (Σx)²` is 0), the Pearson-correlation function returns
exactly 0: the product under the square root is then 0, so the denominator is 0
and the `denominator === 0` guard short-circuits the division.  (In this real-
number model no `NaN`/∞ value exists to return; the guard is what makes the
result exactly 0.) -/
theorem C5_pearson_zero_variance (x y : List ℝ) (hlen : x.length = y.length)
    (h : pvar x = 0 ∨ pvar y = 0) :
    calculatePearsonCorrelation x y = 0 := by
  have hpx : pvar x = (x.length : ℝ) * (x.map fun v => v * v).sum - x.sum * x.sum := rfl
  have hpy : pvar y = (y.length : ℝ) * (y.map fun v => v * v).sum - y.sum * y.sum := rfl
  have hd : ((x.length : ℝ) * (x.map fun v => v * v).sum - x.sum * x.sum) *
      ((x.length : ℝ) * (y.map fun v => v * v).sum - y.sum * y.sum) = 0 := by
    rcases h with h | h
    · rw [← hpx, h, zero_mul]
    · rw [hlen, ← hpy, h, mul_zero]
  rw [calculatePearsonCorrelation, if_neg (by simp [hlen])]
  simp only [pearsonFormula]
  rw [hd, Real.sqrt_zero, if_pos rfl]

/-- C5 witness: the constant series `[1,1,1]` against `[1,2,3]`. -/
theorem C5_witness :
    ([1, 1, 1] : List ℝ).length = ([1, 2, 3] : List ℝ).length ∧
    pvar [1, 1, 1] = 0 ∧
    calculatePearsonCorrelation ([1, 1, 1] : List ℝ) [1, 2, 3] = 0 := by
  have hv : pvar ([1, 1, 1] : List ℝ) = 0 := by
    simp [pvar]
    norm_num
  exact ⟨rfl, hv, C5_pearson_zero_variance [1, 1, 1] [1, 2, 3] rfl (Or.inl hv)⟩

/-! ## Claim C6 -/

/-- C6: the Pearson-correlation function is symmetric in its two series, and a
series paired with any positive scaling of itself (including itself, the scale
factor 1) has correlation exactly 1 provided its variance factor is nonzero. -/
theorem C6_pearson_symm_and_scaled :
    (∀ x y : List ℝ, calculatePearsonCorrelation x y = calculatePearsonCorrelation y x) ∧
    (∀ (x : List ℝ) (c : ℝ), 0 < c → 0 < pvar x →
      calculatePearsonCorrelation x (x.map fun v => c * v) = 1) := by
  constructor
  · intro x y
    by_cases hlen : x.length = y.length
    · rw [calculatePearsonCorrelation, if_neg (by simp [hlen]),
        calculatePearsonCorrelation, if_neg (by simp [hlen])]
      exact pearsonFormula_comm x y hlen
    · rw [calculatePearsonCorrelation, if_pos (by simpa using hlen),
        calculatePearsonCorrelation, if_pos (by simpa using fun h => hlen h.symm)]
  · intro x c hc hv
    rw [calculatePearsonCorrelation, if_neg (by simp)]
    exact pearsonFormula_scaled x c hc hv

/-- C6 witness: symmetry at `[1,2,4]`/`[0,1,7]`, and correlation 1 for
`[10,20,30]` against itself scaled by 2. -/
theorem C6_witness :
    calculatePearsonCorrelation ([1, 2, 4] : List ℝ) [0, 1, 7] =
      calculatePearsonCorrelation ([0, 1, 7] : List ℝ) [1, 2, 4] ∧
    (0 : ℝ) < pvar [10, 20, 30] ∧
    calculatePearsonCorrelation ([10, 20, 30] : List ℝ)
      (([10, 20, 30] : List ℝ).map fun v => 2 * v) = 1 := by
  have hv : (0 : ℝ) < pvar [10, 20, 30] := by
    simp [pvar]
    norm_num
  exact ⟨C6_pearson_symm_and_scaled.1 [1, 2, 4] [0, 1, 7],
    hv, C6_pearson_symm_and_scaled.2 [10, 20, 30] 2 (by norm_num) hv⟩

/-! ## ABC classification lemmas -/


theorem abcGo_rank_map (total : ℚ) (th : ForecastUtils.Thresholds) :
    ∀ (l : List ForecastUtils.SKUM) (cum : ℚ) (idx : ℕ),
      (ForecastUtils.abcGo total th l cum idx).map ForecastUtils.ABCEntry.rank =
        List.range' (idx + 1) l.length
  | [], _, _ => rfl
  | m :: rest, cum, idx => by
    simp only [ForecastUtils.abcGo, List.map_cons, List.length_cons]
    rw [abcGo_rank_map total th rest _ (idx + 1)]
    rfl

theorem abcGo_cum_lb (total : ℚ) (th : ForecastUtils.Thresholds) :
    ∀ (l : List ForecastUtils.SKUM), (∀ m ∈ l, 0 ≤ m.totalGeral) →
      ∀ (cum : ℚ) (idx : ℕ), ∀ e ∈ ForecastUtils.abcGo total th l cum idx,
        cum ≤ e.cumulativePercentage
  | [], _, _, _, _, h => by simp [ForecastUtils.abcGo] at h
  | m :: rest, hnn, cum, idx, e, he => by
    have hm0 : 0 ≤ m.totalGeral := hnn m (List.mem_cons_self _ _)
    have hp : 0 ≤ (if total > 0 then m.totalGeral / total * 100 else 0) := by
      split
      · next htot => exact mul_nonneg (div_nonneg hm0 (le_of_lt htot)) (by norm_num)
      · exact le_refl 0
    simp only [ForecastUtils.abcGo, List.mem_cons] at he
    rcases he with he | he
    · rw [he]
      exact le_add_of_nonneg_right hp
    · have := abcGo_cum_lb total th rest
        (fun x hx => hnn x (List.mem_cons_of_mem _ hx)) _ (idx + 1) e he
      calc cum ≤ cum + (if total > 0 then m.totalGeral / total * 100 else 0) :=
            le_add_of_nonneg_right hp
        _ ≤ e.cumulativePercentage := this

theorem abcGo_cum_pairwise (total : ℚ) (th : ForecastUtils.Thresholds) :
    ∀ (l : List ForecastUtils.SKUM), (∀ m ∈ l, 0 ≤ m.totalGeral) →
      ∀ (cum : ℚ) (idx : ℕ),
        (ForecastUtils.abcGo total th l cum idx).Pairwise
          (fun a b => a.cumulativePercentage ≤ b.cumulativePercentage)
  | [], _, _, _ => List.Pairwise.nil
  | m :: rest, hnn, cum, idx => by
    simp only [ForecastUtils.abcGo]
    refine List.Pairwise.cons ?_ (abcGo_cum_pairwise total th rest
      (fun x hx => hnn x (List.mem_cons_of_mem _ hx)) _ (idx + 1))
    intro e he
    simpa using abcGo_cum_lb total th rest
      (fun x hx => hnn x (List.mem_cons_of_mem _ hx)) _ (idx + 1) e he

theorem abcGo_class_pure (total : ℚ) (th : ForecastUtils.Thresholds) :
    ∀ (l : List ForecastUtils.SKUM) (cum : ℚ) (idx : ℕ),
      ∀ e ∈ ForecastUtils.abcGo total th l cum idx,
        e.classification = classOfThresholds th e.cumulativePercentage
  | [], _, _, _, h => by simp [ForecastUtils.abcGo] at h
  | m :: rest, cum, idx, e, he => by
    simp only [ForecastUtils.abcGo, List.mem_cons] at he
    rcases he with he | he
    · rw [he, classOfThresholds]
    · exact abcGo_class_pure total th rest _ (idx + 1) e he

theorem abcGo_nonpos (total : ℚ) (th : ForecastUtils.Thresholds) (htot : ¬ total > 0) :
    ∀ (l : List ForecastUtils.SKUM) (idx : ℕ),
      ∀ e ∈ ForecastUtils.abcGo total th l 0 idx,
        e.percentage = 0 ∧ e.cumulativePercentage = 0 ∧
          e.classification = (if (0 : ℚ) ≤ th.a then "A"
            else if (0 : ℚ) ≤ th.a + th.b then "B" else "C")
  | [], _, _, h => by simp [ForecastUtils.abcGo] at h
  | m :: rest, idx, e, he => by
    simp only [ForecastUtils.abcGo, if_neg htot, List.mem_cons] at he
    rcases he with he | he
    · rw [he]
      refine ⟨rfl, by simp, ?_⟩
      simp
    · have := abcGo_nonpos total th htot rest (idx + 1) e
      rw [show (0 : ℚ) + 0 = 0 by norm_num] at he
      exact this he

theorem abcGoUtils_nonpos (total : ℚ) (htot : ¬ total > 0) :
    ∀ (l : List AbcUtils.Agg) (idx : ℕ),
      ∀ e ∈ AbcUtils.abcGo total l 0 idx,
        e.percentage = 0 ∧ e.cumulativePercentage = 0 ∧ e.classification = "A"
  | [], _, _, h => by simp [AbcUtils.abcGo] at h
  | g :: rest, idx, e, he => by
    simp only [AbcUtils.abcGo, if_neg htot, List.mem_cons] at he
    rcases he with he | he
    · rw [he]
      refine ⟨rfl, by simp, ?_⟩
      simp only
      rw [if_pos (by norm_num)]
    · have := abcGoUtils_nonpos total htot rest (idx + 1) e
      rw [show (0 : ℚ) + 0 = 0 by norm_num] at he
      exact this he


/-! ## Claim C1 -/

/-- C1 (counterexample): with summed values `[10, -5]` (grand total 5 > 0) the
cumulative percentages in rank order are `[200, 100]` — strictly decreasing —
so cumulativePercentage is *not* monotonically non-decreasing when some entities
have negative summed values. -/
theorem C1_cex_negative_total :
    ((ForecastUtils.calculateABCAnalysis [mkSKUM "P" 10, mkSKUM "N" (-5)]
        ⟨20, 30, 50⟩).map ForecastUtils.ABCEntry.cumulativePercentage = [200, 100]) ∧
    ¬ (ForecastUtils.calculateABCAnalysis [mkSKUM "P" 10, mkSKUM "N" (-5)]
        ⟨20, 30, 50⟩).Pairwise
      (fun a b => a.cumulativePercentage ≤ b.cumulativePercentage) := by
  have hsort : jsSortBy
      (fun a b : ForecastUtils.SKUM => b.totalGeral ≤ a.totalGeral)
      [mkSKUM "P" 10, mkSKUM "N" (-5)] = [mkSKUM "P" 10, mkSKUM "N" (-5)] := by
    refine jsSortBy_of_pairwise ?_
    simp [mkSKUM]
    norm_num
  have heval : ForecastUtils.calculateABCAnalysis [mkSKUM "P" 10, mkSKUM "N" (-5)]
      ⟨20, 30, 50⟩ =
      ForecastUtils.abcGo 5 ⟨20, 30, 50⟩ [mkSKUM "P" 10, mkSKUM "N" (-5)] 0 0 := by
    rw [ForecastUtils.calculateABCAnalysis, hsort]
    norm_num [mkSKUM]
  rw [heval]
  constructor
  · simp only [ForecastUtils.abcGo, List.map_cons, List.map_nil, mkSKUM]
    norm_num
  · simp only [ForecastUtils.abcGo, mkSKUM]
    intro hpw
    rcases List.pairwise_cons.mp hpw with ⟨hrel, -⟩
    have := hrel _ (List.mem_cons_self _ _)
    simp only at this
    norm_num at this

/-- C1 (amended): ranks are always assigned as exactly `1..N` in output order,
and the class label is always the pure threshold function of the entity's
cumulative percentage; the cumulative percentage is monotonically non-decreasing
in rank order *provided every entity's summed value is non-negative* (as the
counterexample shows, a negative summed value makes it decrease). -/
theorem C1_abc_partition (skuMetrics : List ForecastUtils.SKUM)
    (th : ForecastUtils.Thresholds) :
    ((ForecastUtils.calculateABCAnalysis skuMetrics th).map ForecastUtils.ABCEntry.rank =
      List.range' 1 skuMetrics.length) ∧
    ((∀ m ∈ skuMetrics, 0 ≤ m.totalGeral) →
      (ForecastUtils.calculateABCAnalysis skuMetrics th).Pairwise
        (fun a b => a.cumulativePercentage ≤ b.cumulativePercentage)) ∧
    (∀ e ∈ ForecastUtils.calculateABCAnalysis skuMetrics th,
      e.classification = classOfThresholds th e.cumulativePercentage) := by
  refine ⟨?_, ?_, ?_⟩
  · rw [ForecastUtils.calculateABCAnalysis]
    rw [abcGo_rank_map]
    rw [jsSortBy_length]
  · intro hnn
    rw [ForecastUtils.calculateABCAnalysis]
    refine abcGo_cum_pairwise _ th _ ?_ 0 0
    intro m hm
    exact hnn m ((jsSortBy_perm _ _).mem_iff.mp hm)
  · intro e he
    rw [ForecastUtils.calculateABCAnalysis] at he
    exact abcGo_class_pure _ th _ 0 0 e he

/-- C1 witness: the spec's scenario `[1200, 600, 120]` under the 80/95 rule
(thresholds `a = 80`, `b = 15`): the hypothesis of the monotonicity conjunct is
discharged and all three conclusions hold at this input. -/
theorem C1_witness :
    ((ForecastUtils.calculateABCAnalysis
        [mkSKUM "X" 1200, mkSKUM "Y" 600, mkSKUM "Z" 120] ⟨80, 15, 5⟩).map
      ForecastUtils.ABCEntry.rank = List.range' 1 3) ∧
    (ForecastUtils.calculateABCAnalysis
        [mkSKUM "X" 1200, mkSKUM "Y" 600, mkSKUM "Z" 120] ⟨80, 15, 5⟩).Pairwise
      (fun a b => a.cumulativePercentage ≤ b.cumulativePercentage) := by
  have h := C1_abc_partition [mkSKUM "X" 1200, mkSKUM "Y" 600, mkSKUM "Z" 120] ⟨80, 15, 5⟩
  refine ⟨h.1, h.2.1 ?_⟩
  intro m hm
  simp only [List.mem_cons, List.not_mem_nil, or_false] at hm
  rcases hm with hm | hm | hm <;> rw [hm] <;> simp [mkSKUM]

/-! ## Claim C2 -/

/-- C2 (amended): in both utils implementations of ABC classification (part_003
and part_004), a zero grand total makes every percentage and cumulative
percentage 0 and classifies every entity as A (for part_004, provided the
configured class-A boundary is ≥ 0, as the default 20 is).  However — the
counterexample — the third cited implementation, `calculateABCClassification`
in InventoryForecast.jsx, divides by the zero total without a guard, the
cumulative percentage becomes `NaN`, and every entity is classified C. -/
theorem C2_abc_zero_total_all_A :
    (∀ (skuMetrics : List ForecastUtils.SKUM) (th : ForecastUtils.Thresholds),
      (skuMetrics.map ForecastUtils.SKUM.totalGeral).sum = 0 → 0 ≤ th.a →
      (ForecastUtils.calculateABCAnalysis skuMetrics th).Forall fun e =>
        e.percentage = 0 ∧ e.cumulativePercentage = 0 ∧ e.classification = "A") ∧
    (∀ groups : List AbcUtils.Agg,
      (groups.map AbcUtils.Agg.totalValue).sum = 0 →
      (AbcUtils.calculateABCAnalysis groups).data.Forall fun e =>
        e.percentage = 0 ∧ e.cumulativePercentage = 0 ∧ e.classification = "A") := by
  constructor
  · intro skuMetrics th hsum hth
    rw [List.forall_iff_forall_mem]
    intro e he
    rw [ForecastUtils.calculateABCAnalysis] at he
    have hsum2 : ((jsSortBy (fun a b : ForecastUtils.SKUM => b.totalGeral ≤ a.totalGeral)
        skuMetrics).map ForecastUtils.SKUM.totalGeral).sum = 0 := by
      rw [((jsSortBy_perm _ skuMetrics).map ForecastUtils.SKUM.totalGeral).sum_eq, hsum]
    rw [hsum2] at he
    have := abcGo_nonpos 0 th (by norm_num) _ 0 e he
    refine ⟨this.1, this.2.1, ?_⟩
    rw [this.2.2, if_pos hth]
  · intro groups hsum
    rw [List.forall_iff_forall_mem]
    intro e he
    simp only [AbcUtils.calculateABCAnalysis] at he
    have hsum2 : ((AbcUtils.sortedGroups groups).map AbcUtils.Agg.totalValue).sum = 0 := by
      rw [AbcUtils.sortedGroups,
        ((jsSortBy_perm _ groups).map AbcUtils.Agg.totalValue).sum_eq, hsum]
    rw [hsum2] at he
    exact abcGoUtils_nonpos 0 (by norm_num) _ 0 e he

/-- C2 witness: two entities with zero totals — both utils implementations
classify everything as A. -/
theorem C2_witness :
    (([mkSKUM "X" 0, mkSKUM "Y" 0].map ForecastUtils.SKUM.totalGeral).sum = 0) ∧
    ((ForecastUtils.calculateABCAnalysis [mkSKUM "X" 0, mkSKUM "Y" 0]
        ⟨20, 30, 50⟩).Forall fun e =>
      e.percentage = 0 ∧ e.cumulativePercentage = 0 ∧ e.classification = "A") := by
  have hsum : (([mkSKUM "X" 0, mkSKUM "Y" 0].map ForecastUtils.SKUM.totalGeral).sum
      : ℚ) = 0 := by
    simp [mkSKUM]
  exact ⟨hsum, C2_abc_zero_total_all_A.1 [mkSKUM "X" 0, mkSKUM "Y" 0] ⟨20, 30, 50⟩ hsum
    (by norm_num)⟩

/-- C2 (counterexample): the page-level copy `calculateABCClassification`
(InventoryForecast.jsx) has no zero-total guard: with two entities of total 0,
`0/0` makes the cumulative percentage `NaN`, both `≤ 80` and `≤ 95` compare
false, and *every* entity is classified C — not A as the claim requires. -/
theorem C2_cex_page_division_by_zero :
    ((Page.calculateABCClassification
        [{ sku := "P1", totalGeral := 0 }, { sku := "P2", totalGeral := 0 }]).map
      Page.PSkuC.curva = ["C", "C"]) ∧
    ("C" : String) ≠ "A" := by
  constructor
  · have hsort : jsSortBy (fun a b : Page.PSku => b.totalGeral ≤ a.totalGeral)
        [{ sku := "P1", totalGeral := 0 }, { sku := "P2", totalGeral := 0 }] =
        [{ sku := "P1", totalGeral := 0 }, { sku := "P2", totalGeral := 0 }] := by
      refine jsSortBy_of_pairwise ?_
      simp
    rw [Page.calculateABCClassification, hsort]
    norm_num
    simp [Page.abcClassifyGo, jdiv, JSN.mulPos, JSN.add, JSN.leQ]
  · simp

/-! ## Kit dedup lemmas (claim C9) -/

theorem lexLe_total : ∀ x y : List Char, Page.lexLe x y = true ∨ Page.lexLe y x = true
  | [], _ => Or.inl rfl
  | _ :: _, [] => Or.inr rfl
  | a :: as, b :: bs => by
    by_cases hab : a = b
    · subst hab
      simp only [Page.lexLe, if_pos rfl]
      exact lexLe_total as bs
    · rcases lt_or_gt_of_ne hab with h | h
      · left
        simp only [Page.lexLe, if_neg hab]
        exact decide_eq_true h
      · right
        simp only [Page.lexLe, if_neg (Ne.symm hab)]
        exact decide_eq_true h

theorem lexLe_antisymm : ∀ x y : List Char,
    Page.lexLe x y = true → Page.lexLe y x = true → x = y
  | [], [], _, _ => rfl
  | [], b :: bs, _, h2 => by simp [Page.lexLe] at h2
  | a :: as, [], h1, _ => by simp [Page.lexLe] at h1
  | a :: as, b :: bs, h1, h2 => by
    by_cases hab : a = b
    · subst hab
      simp only [Page.lexLe, if_pos rfl] at h1 h2
      rw [lexLe_antisymm as bs h1 h2]
    · rw [Page.lexLe, if_neg hab] at h1
      rw [Page.lexLe, if_neg (Ne.symm hab)] at h2
      exact absurd (of_decide_eq_true h2) (asymm (of_decide_eq_true h1))

theorem pairKey_comm (a b : String) : Page.pairKey a b = Page.pairKey b a := by
  unfold Page.pairKey
  cases h1 : Page.lexLe a.toList b.toList <;> cases h2 : Page.lexLe b.toList a.toList
  · rcases lexLe_total a.toList b.toList with h | h
    · rw [h] at h1; exact absurd h1 (by simp)
    · rw [h] at h2; exact absurd h2 (by simp)
  · simp
  · simp
  · have hl := lexLe_antisymm _ _ h1 h2
    have hab : a = b := by
      cases a with
      | mk d1 =>
        cases b with
        | mk d2 => exact congrArg String.mk (by simpa [String.toList] using hl)
    subst hab
    simp




theorem processPair_inv (a b : Page.KSku) (st : Page.KitState) (h : KitInv st) :
    KitInv (Page.processPair a b st) := by
  simp only [Page.processPair]
  split
  · exact h
  · next hkey =>
    split
    · constructor
      · intro k hk
        rcases List.mem_append.mp hk with hk | hk
        · obtain ⟨hpair, hmem⟩ := h.1 k hk
          exact ⟨hpair, List.mem_append_left _ hmem⟩
        · rcases List.mem_singleton.mp hk with rfl
          exact ⟨⟨_, _, rfl⟩, List.mem_append_right _ (List.mem_singleton_self _)⟩
      · rw [List.pairwise_append]
        refine ⟨h.2, List.pairwise_singleton _ _, ?_⟩
        intro k1 hk1 k2 hk2
        rcases List.mem_singleton.mp hk2 with rfl
        intro heq
        apply hkey
        have h3 : kitKey k1 ∈ st.processedPairs := (h.1 k1 hk1).2
        rwa [heq] at h3
    · exact ⟨fun k hk => ⟨(h.1 k hk).1, List.mem_append_left _ (h.1 k hk).2⟩, h.2⟩

theorem kitInner_inv (a : Page.KSku) :
    ∀ (l : List Page.KSku) (st : Page.KitState), KitInv st → KitInv (Page.kitInner a l st)
  | [], _, h => h
  | b :: rest, st, h => by
    rw [Page.kitInner]
    split
    · exact kitInner_inv a rest _ (processPair_inv a b _ h)
    · exact h

theorem kitOuter_inv :
    ∀ (l : List Page.KSku) (st : Page.KitState), KitInv st → KitInv (Page.kitOuter l st)
  | [], _, h => h
  | a :: rest, st, h => by
    rw [Page.kitOuter]
    split
    · exact kitOuter_inv rest _ (kitInner_inv a rest st h)
    · exact h

/-! ## Claim C9 -/

/-- C9: for every candidate pool, no two kits in the output recommendation list
consist of the same unordered pair of SKUs — deduplication via the canonical
sorted pair key guarantees each unordered pair occurs at most once. -/
theorem C9_kit_pairs_unique (skuData : List Page.KSku) :
    (Page.generateKitRecommendations skuData).1.Pairwise
      fun k1 k2 => kitPairOf k1 ≠ kitPairOf k2 := by
  have hinv : KitInv (Page.kitOuter (Page.topPerformers skuData)
      { recommendations := [], processedPairs := [], combinationCount := 0 }) :=
    kitOuter_inv _ _ ⟨fun k hk => absurd hk (List.not_mem_nil k), List.Pairwise.nil⟩
  have hpw2 : (Page.kitOuter (Page.topPerformers skuData)
      { recommendations := [], processedPairs := [], combinationCount := 0
        }).recommendations.Pairwise fun k1 k2 => kitPairOf k1 ≠ kitPairOf k2 := by
    refine hinv.2.imp_of_mem ?_
    intro k1 k2 hk1 hk2 hne heq
    obtain ⟨a1, b1, hp1⟩ := (hinv.1 k1 hk1).1
    obtain ⟨a2, b2, hp2⟩ := (hinv.1 k2 hk2).1
    apply hne
    rw [kitPairOf, kitPairOf] at heq
    rw [hp1, hp2] at heq
    simp only at heq
    rw [kitKey, kitKey, hp1, hp2]
    simp only
    rcases Sym2.eq_iff.mp heq with ⟨hx, hy⟩ | ⟨hx, hy⟩
    · rw [hx, hy]
    · rw [hx, hy, pairKey_comm]
  simp only [Page.generateKitRecommendations]
  have hsym : Symmetric (fun k1 k2 : Page.Kit => kitPairOf k1 ≠ kitPairOf k2) :=
    fun x y hxy heq => hxy heq.symm
  have hperm := jsSortBy_perm (fun a b : Page.Kit => b.potential ≤ a.potential)
    (Page.kitOuter (Page.topPerformers skuData)
      { recommendations := [], processedPairs := [], combinationCount := 0 }).recommendations
  have hsorted := (hperm.pairwise_iff fun hxy => hsym hxy).mpr hpw2
  exact hsorted.sublist (List.take_sublist _ _)

/-! ## Association and momentum lemmas (claims C3, C10) -/



theorem mediaTotalOf_perm {l1 l2 : List ℚ} (h : l1.Perm l2) :
    mediaTotalOf l1 = mediaTotalOf l2 := by
  have hf := h.filter (fun v => decide (0 < v))
  simp only [mediaTotalOf]
  rw [hf.length_eq, hf.sum_eq]

theorem baseMetrics_monthlyData_perm (name : String) (items : List ForecastUtils.OItem)
    (w : ℕ) (now : ℤ) :
    ((ForecastUtils.calculateBaseMetrics name items w now).monthlyData.map Prod.snd).Perm
      ((ForecastUtils.monthWindow now w).map (ForecastUtils.sumMonth items)) := by
  refine ((jsSortBy_perm _ _).map Prod.snd).trans ?_
  rw [List.map_map]
  exact List.Perm.refl _

theorem baseMetrics_mediaTotal (name : String) (items : List ForecastUtils.OItem)
    (w : ℕ) (now : ℤ) :
    (ForecastUtils.calculateBaseMetrics name items w now).mediaTotal =
      mediaTotalOf ((ForecastUtils.calculateBaseMetrics name items w now).monthlyData.map
        Prod.snd) := by
  have h1 : (ForecastUtils.calculateBaseMetrics name items w now).mediaTotal =
      mediaTotalOf ((ForecastUtils.monthWindow now w).map (ForecastUtils.sumMonth items)) := rfl
  rw [h1, mediaTotalOf_perm (baseMetrics_monthlyData_perm name items w now)]

theorem abcGo_toSKUM_mem (total : ℚ) (th : ForecastUtils.Thresholds) :
    ∀ (l : List ForecastUtils.SKUM) (cum : ℚ) (idx : ℕ),
      ∀ e ∈ ForecastUtils.abcGo total th l cum idx, e.toSKUM ∈ l
  | [], _, _, _, h => by simp [ForecastUtils.abcGo] at h
  | m :: rest, cum, idx, e, he => by
    simp only [ForecastUtils.abcGo, List.mem_cons] at he
    rcases he with he | he
    · rw [he]
      exact List.mem_cons_self _ _
    · exact List.mem_cons_of_mem _ (abcGo_toSKUM_mem total th rest _ (idx + 1) e he)

/-- Every record of the recommendations list carries, unchanged, the base
metrics computed for its SKU name from the grouped input rows. -/
theorem pipeline_metrics_base (msd : List ForecastUtils.OItem) (w : ℕ) (now : ℤ)
    (th : ForecastUtils.Thresholds) (cov : ForecastUtils.Cobertura) :
    ∀ a ∈ ForecastUtils.calculateInventoryRecommendations
        (ForecastUtils.calculateABCAnalysis
          ((ForecastUtils.firstDedup (msd.filterMap ForecastUtils.OItem.DESCRICAO)).map fun name =>
            ForecastUtils.calculateBaseMetrics name
              (msd.filter fun it => it.DESCRICAO == some name) w now) th) cov,
      a.toSKUM = ForecastUtils.calculateBaseMetrics a.sku
        (msd.filter fun it => it.DESCRICAO == some a.sku) w now := by
  intro a ha
  rw [ForecastUtils.calculateInventoryRecommendations] at ha
  rcases List.mem_map.mp ha with ⟨b, hb, rfl⟩
  rw [ForecastUtils.calculateABCAnalysis] at hb
  have hmem := abcGo_toSKUM_mem _ th _ 0 0 b hb
  rcases List.mem_map.mp ((jsSortBy_perm _ _).mem_iff.mp hmem) with ⟨name, -, hEq⟩
  have hsku : b.toSKUM.sku = name := by
    rw [← hEq]
    rfl
  show b.toSKUM = ForecastUtils.calculateBaseMetrics b.toSKUM.sku
    (msd.filter fun it => it.DESCRICAO == some b.toSKUM.sku) w now
  rw [hsku, hEq]

theorem driverStep_mem (m : List ForecastUtils.RecEntry) (acc : ℝ × ℝ × List ForecastUtils.Driver)
    (association : ForecastUtils.Assoc) (d : ForecastUtils.Driver)
    (hd : d ∈ (ForecastUtils.driverStep m acc association).2.2) :
    d ∈ acc.2.2 ∨
      ∃ aSku, m.find? (fun s => s.sku == association.sku) = some aSku ∧
        d.sku = association.sku ∧ d.strength = association.strength ∧
        d.type = association.type ∧
        d.weightedMomentum = d.momentum * association.strength ∧
        d.momentum =
          (let vals := aSku.monthlyData.map Prod.snd
           let sd := ForecastUtils.calculateStandardDeviation vals
           if 0 < sd then ((ForecastUtils.lastD vals - aSku.mediaTotal : ℚ) : ℝ) / sd else 0) := by
  revert hd
  simp only [ForecastUtils.driverStep]
  split
  · exact fun hd => Or.inl hd
  · next aSku hfind =>
    split
    · exact fun hd => Or.inl hd
    · intro hd
      rcases List.mem_append.mp hd with hd | hd
      · exact Or.inl hd
      · rcases List.mem_singleton.mp hd with rfl
        exact Or.inr ⟨aSku, hfind, rfl, rfl, rfl, rfl, rfl⟩

theorem driverFold_mem (m : List ForecastUtils.RecEntry) :
    ∀ (l : List ForecastUtils.Assoc) (acc : ℝ × ℝ × List ForecastUtils.Driver)
      (d : ForecastUtils.Driver),
      d ∈ (l.foldl (ForecastUtils.driverStep m) acc).2.2 →
      d ∈ acc.2.2 ∨
        ∃ association, association ∈ l ∧
          ∃ aSku, m.find? (fun s => s.sku == association.sku) = some aSku ∧
            d.sku = association.sku ∧ d.strength = association.strength ∧
            d.type = association.type ∧
            d.weightedMomentum = d.momentum * association.strength ∧
            d.momentum =
              (let vals := aSku.monthlyData.map Prod.snd
               let sd := ForecastUtils.calculateStandardDeviation vals
               if 0 < sd then ((ForecastUtils.lastD vals - aSku.mediaTotal : ℚ) : ℝ) / sd else 0)
  | [], _, _, hd => Or.inl hd
  | a :: rest, acc, d, hd => by
    rw [List.foldl_cons] at hd
    rcases driverFold_mem m rest _ d hd with hacc | ⟨association, hassoc, rest⟩
    · rcases driverStep_mem m acc a d hacc with h | ⟨aSku, props⟩
      · exact Or.inl h
      · exact Or.inr ⟨a, List.mem_cons_self _ _, aSku, props⟩
    · exact Or.inr ⟨association, List.mem_cons_of_mem _ hassoc, rest⟩

/-- Every driver surfaced by `calculatePatternAdjustments` comes from one of the
SKU's associations, with the momentum formula applied to the *found* metrics
record and the impact weighted by the association strength. -/
theorem patternAdjustments_driverOut (m : List ForecastUtils.RecEntry)
    (assoc : List (String × List ForecastUtils.Assoc)) (alpha : ℝ) :
    ∀ e ∈ ForecastUtils.calculatePatternAdjustments m assoc alpha,
      ∀ dOut ∈ e.drivers,
        ∃ aSku, aSku ∈ m ∧ aSku.sku = dOut.sku ∧
          dOut.momentum =
            (let vals := aSku.monthlyData.map Prod.snd
             let sd := ForecastUtils.calculateStandardDeviation vals
             if 0 < sd then ((ForecastUtils.lastD vals - aSku.mediaTotal : ℚ) : ℝ) / sd else 0) ∧
          dOut.impact = dOut.momentum * dOut.strength * alpha * 100 := by
  have hdrivers_empty : ∀ sku : ForecastUtils.RecEntry,
      (((assoc.find? fun p => p.1 == sku.sku).map Prod.snd).getD []).isEmpty = true →
      (ForecastUtils.adjustEntry m assoc alpha sku).drivers = [] := by
    intro sku h
    simp [ForecastUtils.adjustEntry, h]
  have hdrivers_full : ∀ sku : ForecastUtils.RecEntry,
      (((assoc.find? fun p => p.1 == sku.sku).map Prod.snd).getD []).isEmpty = false →
      (ForecastUtils.adjustEntry m assoc alpha sku).drivers =
        ((jsSortBy (fun d1 d2 : ForecastUtils.Driver =>
            |d2.weightedMomentum| ≤ |d1.weightedMomentum|)
          (ForecastUtils.driverFold m
            (((assoc.find? fun p => p.1 == sku.sku).map Prod.snd).getD [])).2.2).take 3).map
          fun driver =>
            ({ sku := driver.sku, impact := driver.weightedMomentum * alpha * 100,
               strength := driver.strength, momentum := driver.momentum,
               type := driver.type } : ForecastUtils.DriverOut) := by
    intro sku h
    simp [ForecastUtils.adjustEntry, h]
  intro e he dOut hdo
  rw [ForecastUtils.calculatePatternAdjustments] at he
  rcases List.mem_map.mp he with ⟨sku, hsku, rfl⟩
  rcases hcond : (((assoc.find? fun p => p.1 == sku.sku).map Prod.snd).getD []).isEmpty with
    - | -
  · rw [hdrivers_full sku hcond] at hdo
    rcases List.mem_map.mp hdo with ⟨d, hd, rfl⟩
    have hd2 : d ∈ (ForecastUtils.driverFold m
        (((assoc.find? fun p => p.1 == sku.sku).map Prod.snd).getD [])).2.2 :=
      (jsSortBy_perm _ _).mem_iff.mp ((List.take_sublist _ _).mem hd)
    rw [ForecastUtils.driverFold] at hd2
    rcases driverFold_mem m _ _ d hd2 with h | ⟨association, -, aSku, hfind, hsku2, hstr, -, hwm, hmom⟩
    · exact absurd h (List.not_mem_nil d)
    · refine ⟨aSku, List.mem_of_find?_eq_some hfind, ?_, ?_, ?_⟩
      · have := List.find?_some hfind
        simp only [beq_iff_eq] at this
        rw [this, ← hsku2]
      · exact hmom
      · show d.weightedMomentum * alpha * 100 = d.momentum * d.strength * alpha * 100
        rw [hwm, hstr]
  · rw [hdrivers_empty sku hcond] at hdo
    exact absurd hdo (List.not_mem_nil dOut)

theorem assocRaw_mem (orderData : List ForecastUtils.OItem) (months : List ℤ)
    (skuMetrics : List ForecastUtils.RecEntry) (threshold : ℝ)
    (sku1 : ForecastUtils.RecEntry) (a : ForecastUtils.Assoc)
    (ha : a ∈ ForecastUtils.assocRaw orderData months skuMetrics threshold sku1) :
    a.strength = |a.correlation| ∧ threshold ≤ a.strength ∧ a.type = "correlation" ∧
    sku1.sku ≠ a.sku ∧
    ∃ s2, s2 ∈ skuMetrics ∧ s2.sku = a.sku ∧
      a.correlation = calculatePearsonCorrelation
        (ratList (ForecastUtils.seriesOf orderData months sku1.sku))
        (ratList (ForecastUtils.seriesOf orderData months a.sku)) := by
  rw [ForecastUtils.assocRaw] at ha
  rcases List.mem_filterMap.mp ha with ⟨s2, hs2, hsome⟩
  revert hsome
  split
  · intro hsome
    exact absurd hsome (by simp)
  · next hne =>
    by_cases hth : threshold ≤ |calculatePearsonCorrelation
        (ratList (ForecastUtils.seriesOf orderData months sku1.sku))
        (ratList (ForecastUtils.seriesOf orderData months s2.sku))|
    · intro hsome
      simp only [hth, if_true, Option.some.injEq] at hsome
      subst hsome
      exact ⟨rfl, hth, rfl, hne, s2, hs2, rfl, rfl⟩
    · intro hsome
      simp only [hth, if_false] at hsome
      exact absurd hsome (by simp)

/-! ## Claim C10 -/

/-- C10 (amended): every *retained* association of the correlation miner has
`strength = |correlation| ≥ threshold` (so strongly negative correlations
qualify exactly like positive ones, with positive strength), and each retained
list is truncated to at most `topK` entries — the claimed "retained exactly when
`|correlation| ≥ threshold`" fails in the other direction because a qualifying
pair beyond the top-K strongest is dropped (see the counterexample).  The
positive strength then weights the momentum: every surfaced driver's impact is
`momentum × strength × α × 100`. -/
theorem C10_assoc_strength :
    (∀ (orderData : List ForecastUtils.OItem) (skuMetrics : List ForecastUtils.RecEntry)
      (threshold : ℝ) (topK : ℕ),
      (ForecastUtils.calculateCorrelationAssociations orderData skuMetrics threshold
        topK).Forall fun pr =>
        pr.2.length ≤ topK ∧ pr.2.Forall fun a =>
          a.strength = |a.correlation| ∧ threshold ≤ a.strength ∧ pr.1 ≠ a.sku ∧
          ∃ s2, s2 ∈ skuMetrics ∧ s2.sku = a.sku ∧
            a.correlation = calculatePearsonCorrelation
              (ratList (ForecastUtils.seriesOf orderData
                (ForecastUtils.monthsOf orderData) pr.1))
              (ratList (ForecastUtils.seriesOf orderData
                (ForecastUtils.monthsOf orderData) a.sku))) ∧
    (∀ (m : List ForecastUtils.RecEntry) (assoc : List (String × List ForecastUtils.Assoc))
      (alpha : ℝ),
      (ForecastUtils.calculatePatternAdjustments m assoc alpha).Forall fun e =>
        e.drivers.Forall fun dOut =>
          dOut.impact = dOut.momentum * dOut.strength * alpha * 100) := by
  constructor
  · intro orderData skuMetrics threshold topK
    rw [List.forall_iff_forall_mem]
    intro pr hpr
    rw [ForecastUtils.calculateCorrelationAssociations] at hpr
    rcases List.mem_map.mp hpr with ⟨s1, hs1, rfl⟩
    constructor
    · exact List.length_take_le _ _
    · rw [List.forall_iff_forall_mem]
      intro a hmem
      have hraw : a ∈ ForecastUtils.assocRaw orderData (ForecastUtils.monthsOf orderData)
          skuMetrics threshold s1 :=
        (jsSortBy_perm _ _).mem_iff.mp ((List.take_sublist _ _).mem hmem)
      obtain ⟨h1, h2, -, h4, s2, h5, h6, h7⟩ :=
        assocRaw_mem orderData _ skuMetrics threshold s1 a hraw
      exact ⟨h1, h2, h4, s2, h5, h6, h7⟩
  · intro m assoc alpha
    rw [List.forall_iff_forall_mem]
    intro e he
    rw [List.forall_iff_forall_mem]
    intro dOut hdo
    obtain ⟨-, -, -, -, himp⟩ := patternAdjustments_driverOut m assoc alpha e he dOut hdo
    exact himp

/-! ## Claim C3 -/

/-- C3 (amended): for every SKU pipeline run, the momentum of every surfaced
driver is `(latestPeriodValue − mediaTotal) / stdDev` (0 when `stdDev` is 0),
where `stdDev` is the population standard deviation of the SKU's *full* stored
monthly series but `mediaTotal` is the mean over only the *non-zero* months of
the analysis window — not the mean of the full series as the claim states (see
the counterexample for the difference). -/
theorem C3_momentum_uses_media_total (msd od : List ForecastUtils.OItem) (w : ℕ) (now : ℤ)
    (th : ForecastUtils.Thresholds) (cov : ForecastUtils.Cobertura) (threshold : ℝ)
    (topK : ℕ) (alpha : ℝ) :
    (ForecastUtils.calculateInventoryForecast msd od w now th cov threshold topK
      alpha).Forall fun e =>
      e.drivers.Forall fun dOut =>
        dOut.momentum =
          (let vals := (ForecastUtils.calculateBaseMetrics dOut.sku
              (msd.filter fun it => it.DESCRICAO == some dOut.sku) w now).monthlyData.map
                Prod.snd
           let sd := ForecastUtils.calculateStandardDeviation vals
           if 0 < sd then ((ForecastUtils.lastD vals - mediaTotalOf vals : ℚ) : ℝ) / sd else 0) := by
  rw [List.forall_iff_forall_mem]
  intro e he
  rw [List.forall_iff_forall_mem]
  intro dOut hdo
  rw [ForecastUtils.calculateInventoryForecast] at he
  obtain ⟨aSku, haSku, hname, hmom, -⟩ :=
    patternAdjustments_driverOut _ _ alpha e he dOut hdo
  have hbase := pipeline_metrics_base msd w now th cov aSku haSku
  rw [hname] at hbase
  simp only at hmom
  rw [hmom]
  have hvals : aSku.monthlyData.map Prod.snd =
      (ForecastUtils.calculateBaseMetrics dOut.sku
        (msd.filter fun it => it.DESCRICAO == some dOut.sku) w now).monthlyData.map
        Prod.snd := by
    rw [show aSku.monthlyData = aSku.toSKUM.monthlyData from rfl, hbase]
  have hmt : aSku.mediaTotal =
      mediaTotalOf ((ForecastUtils.calculateBaseMetrics dOut.sku
        (msd.filter fun it => it.DESCRICAO == some dOut.sku) w now).monthlyData.map
        Prod.snd) := by
    rw [show aSku.mediaTotal = aSku.toSKUM.mediaTotal from rfl, hbase]
    exact baseMetrics_mediaTotal _ _ w now
  rw [hvals, hmt]

/-! ## Claim C3 counterexample inputs -/







theorem c3_quantity_eval : validateQuantity (.fstr "2") = 2 := by
  simp +decide [validateQuantity, cleanChars, replaceFirstComma, parsePF, parsePFbody]
  norm_num [show digitsVal ['2'] = 2 by decide, show digitsVal [] = 0 by decide]

theorem c3_monthly_values :
    (ForecastUtils.monthWindow 1 2).map (ForecastUtils.sumMonth c3items) = [2, 0] := by
  have hw : ForecastUtils.monthWindow 1 2 = [1, 0] := by decide
  have hs1 : ForecastUtils.sumMonth c3items 1 = 2 := by
    simp +decide [ForecastUtils.sumMonth, c3items, c3_quantity_eval]
  have hs0 : ForecastUtils.sumMonth c3items 0 = 0 := by
    simp +decide [ForecastUtils.sumMonth, c3items]
  rw [hw]
  simp only [List.map_cons, List.map_nil, hs1, hs0]

theorem c3base_monthlyData : c3base.monthlyData = [(0, 0), (1, 2)] := by
  have hw : ForecastUtils.monthWindow 1 2 = [1, 0] := by decide
  have hs1 : ForecastUtils.sumMonth c3items 1 = 2 := by
    simp +decide [ForecastUtils.sumMonth, c3items, c3_quantity_eval]
  have hs0 : ForecastUtils.sumMonth c3items 0 = 0 := by
    simp +decide [ForecastUtils.sumMonth, c3items]
  show jsSortBy (fun p q : ℤ × ℚ => p.1 ≤ q.1)
    ((ForecastUtils.monthWindow 1 2).map fun m => (m, ForecastUtils.sumMonth c3items m)) =
    [(0, 0), (1, 2)]
  rw [hw]
  simp only [List.map_cons, List.map_nil, hs1, hs0]
  simp +decide [jsSortBy, List.insertionSort, List.orderedInsert]

theorem c3base_mediaTotal : c3base.mediaTotal = 2 := by
  have h1 : c3base.mediaTotal =
      (let nz := (((ForecastUtils.monthWindow 1 2).map
          (ForecastUtils.sumMonth c3items)).filter fun v => 0 < v)
       if nz.length > 0 then nz.sum / (nz.length : ℚ) else 0) := rfl
  rw [h1, c3_monthly_values]
  norm_num

theorem c3_stddev : ForecastUtils.calculateStandardDeviation [0, 2] = 1 := by
  have hvar : ((([0, 2] : List ℚ).map fun val =>
      (val - ([0, 2] : List ℚ).sum / (([0, 2] : List ℚ).length : ℚ)) ^ 2).sum /
      (([0, 2] : List ℚ).length : ℚ)) = 1 := by
    norm_num
  rw [ForecastUtils.calculateStandardDeviation, if_neg (by simp)]
  show Real.sqrt (((([0, 2] : List ℚ).map fun val =>
      (val - ([0, 2] : List ℚ).sum / (([0, 2] : List ℚ).length : ℚ)) ^ 2).sum /
      (([0, 2] : List ℚ).length : ℚ) : ℚ) : ℝ) = 1
  rw [hvar, Rat.cast_one, Real.sqrt_one]

/-- C3 (counterexample): for SKU "S1" associated to "S2" whose stored series is
`[0, 2]` (full-series mean 1, standard deviation 1, `mediaTotal` 2), the
computed momentum is `(2 − 2)/1 = 0`, whereas the claimed formula
`(latest − mean of full series)/stdDev` gives `(2 − 1)/1 = 1`. -/
theorem C3_cex_momentum_not_full_mean :
    (((ForecastUtils.calculatePatternAdjustments [c3rec1, c3rec2] c3assoc (15 / 100)).map
      fun e => e.drivers.map ForecastUtils.DriverOut.momentum) = [[0], []]) ∧
    ((ForecastUtils.lastD [0, 2] - listMean [0, 2] : ℚ) : ℝ) /
      ForecastUtils.calculateStandardDeviation [0, 2] = 1 ∧
    (0 : ℝ) ≠ 1 := by
  have hlast : ForecastUtils.lastD [0, 2] = 2 := rfl
  have hmean : listMean [0, 2] = 1 := by norm_num [listMean]
  refine ⟨?_, ?_, by norm_num⟩
  · have hmt2 : c3rec2.mediaTotal = 2 := c3base_mediaTotal
    have hvals : c3rec2.monthlyData.map Prod.snd = [0, 2] := by
      rw [show c3rec2.monthlyData = c3base.monthlyData from rfl, c3base_monthlyData]
      rfl
    have hmde : c3rec2.monthlyData.isEmpty = false := by
      rw [show c3rec2.monthlyData = c3base.monthlyData from rfl, c3base_monthlyData]
      rfl
    have hfind : List.find? (fun s => s.sku == c3a.sku) [c3rec1, c3rec2] = some c3rec2 := rfl
    have hstep : ((ForecastUtils.driverFold [c3rec1, c3rec2] [c3a]).2.2).map
        ForecastUtils.Driver.momentum = [0] := by
      rw [ForecastUtils.driverFold, List.foldl_cons, List.foldl_nil]
      simp only [ForecastUtils.driverStep, hfind]
      rw [if_neg (by simp [hmde])]
      simp only [List.nil_append, List.map_cons, List.map_nil]
      simp only [hvals, hmt2, c3_stddev, hlast]
      norm_num
    have hcond1 : (((c3assoc.find? fun p => p.1 == c3rec1.sku).map Prod.snd).getD
        []).isEmpty = false := rfl
    have hassoc1 : (((c3assoc.find? fun p => p.1 == c3rec1.sku).map Prod.snd).getD []) =
        [c3a] := rfl
    have hcond2 : (((c3assoc.find? fun p => p.1 == c3rec2.sku).map Prod.snd).getD
        []).isEmpty = true := rfl
    have h2 : (ForecastUtils.adjustEntry [c3rec1, c3rec2] c3assoc (15 / 100)
        c3rec2).drivers = [] := by
      simp [ForecastUtils.adjustEntry, hcond2]
    have hdr : (ForecastUtils.adjustEntry [c3rec1, c3rec2] c3assoc (15 / 100)
        c3rec1).drivers =
        ((jsSortBy (fun d1 d2 : ForecastUtils.Driver =>
            |d2.weightedMomentum| ≤ |d1.weightedMomentum|)
          (ForecastUtils.driverFold [c3rec1, c3rec2] [c3a]).2.2).take 3).map
          fun driver =>
            ({ sku := driver.sku, impact := driver.weightedMomentum * (15 / 100) * 100,
               strength := driver.strength, momentum := driver.momentum,
               type := driver.type } : ForecastUtils.DriverOut) := by
      simp [ForecastUtils.adjustEntry, hcond1, hassoc1]
    have h1 : (ForecastUtils.adjustEntry [c3rec1, c3rec2] c3assoc (15 / 100)
        c3rec1).drivers.map ForecastUtils.DriverOut.momentum = [0] := by
      rcases hL : (ForecastUtils.driverFold [c3rec1, c3rec2] [c3a]).2.2 with - | ⟨D, rest⟩
      · rw [hL] at hstep
        simp at hstep
      · rcases rest with - | ⟨D2, rest2⟩
        · rw [hL] at hstep
          simp only [List.map_cons, List.map_nil, List.cons.injEq, and_true] at hstep
          rw [hdr, hL, jsSortBy_of_pairwise (List.pairwise_singleton _ _)]
          simp [hstep]
        · rw [hL] at hstep
          simp at hstep
    rw [ForecastUtils.calculatePatternAdjustments]
    simp only [List.map_cons, List.map_nil]
    rw [h1, h2]
    simp
  · rw [hlast, hmean, c3_stddev]
    norm_num

/-! ## Claim C10 counterexample inputs -/




theorem c10_months : ForecastUtils.monthsOf c10od = [10, 11] := by
  rw [ForecastUtils.monthsOf]
  have hd : (c10od.filterMap fun it =>
      if it.DESCRICAO.isSome then it.DTEMISSAO else none).dedup = [10, 11] := by decide
  rw [hd]
  exact jsSortBy_of_pairwise (by simp)

theorem c10_quantity_one : validateQuantity (.fstr "1") = 1 := by
  simp +decide [validateQuantity, cleanChars, replaceFirstComma, parsePF, parsePFbody]
  norm_num [show digitsVal ['1'] = 1 by decide, show digitsVal [] = 0 by decide]

theorem c10_series_S1 : ForecastUtils.seriesOf c10od [10, 11] "S1" = [1, 2] := by
  simp +decide [ForecastUtils.seriesOf, ForecastUtils.matrixVal, c10od,
    c10_quantity_one, c3_quantity_eval]

theorem c10_series_S2 : ForecastUtils.seriesOf c10od [10, 11] "S2" = [1, 2] := by
  simp +decide [ForecastUtils.seriesOf, ForecastUtils.matrixVal, c10od,
    c10_quantity_one, c3_quantity_eval]

theorem c10_series_S3 : ForecastUtils.seriesOf c10od [10, 11] "S3" = [1, 2] := by
  simp +decide [ForecastUtils.seriesOf, ForecastUtils.matrixVal, c10od,
    c10_quantity_one, c3_quantity_eval]

theorem c10_ratList : ratList [1, 2] = [(1 : ℝ), 2] := by
  norm_num [ratList]

theorem c10_pearson_self : calculatePearsonCorrelation [(1 : ℝ), 2] [(1 : ℝ), 2] = 1 := by
  refine calculatePearson_self _ ?_
  simp [pvar]
  norm_num

theorem c10_assocRaw :
    ForecastUtils.assocRaw c10od [10, 11] c10metrics (3 / 5) (mkRec "S1") =
      [{ sku := "S2", strength := 1, correlation := 1, type := "correlation" },
       { sku := "S3", strength := 1, correlation := 1, type := "correlation" }] := by
  have hle : (3 / 5 : ℝ) ≤ |(1 : ℝ)| := by norm_num
  have hle1 : (3 / 5 : ℝ) ≤ 1 := by norm_num
  rw [ForecastUtils.assocRaw]
  simp +decide [c10metrics, mkRec, mkSKUM, List.filterMap_cons, c10_series_S1,
    c10_series_S2, c10_series_S3, c10_ratList, c10_pearson_self, hle, hle1]

/-- C10 (counterexample): with `topK = 1` and three SKUs whose series are
identical (all pairwise correlations are 1 ≥ threshold 0.6), the ordered pair
(S1, S3) reaches the threshold yet is *not* retained — the per-SKU list is
truncated to the top-K strongest, so "retained exactly when
`|correlation| ≥ threshold`" fails. -/
theorem C10_cex_topk_truncation :
    ((ForecastUtils.calculateCorrelationAssociations c10od c10metrics (3 / 5) 1).find?
        (fun p => p.1 == "S1")).map (fun p => p.2.map ForecastUtils.Assoc.sku) =
      some ["S2"] ∧
    (3 / 5 : ℝ) ≤ |calculatePearsonCorrelation
      (ratList (ForecastUtils.seriesOf c10od (ForecastUtils.monthsOf c10od) "S1"))
      (ratList (ForecastUtils.seriesOf c10od (ForecastUtils.monthsOf c10od) "S3"))| ∧
    ("S3" : String) ∉ ["S2"] := by
  have ha2 : ForecastUtils.assocRaw c10od [10, 11] [mkRec "S1", mkRec "S2", mkRec "S3"]
      (3 / 5) (mkRec "S1") =
      [{ sku := "S2", strength := 1, correlation := 1, type := "correlation" },
       { sku := "S3", strength := 1, correlation := 1, type := "correlation" }] :=
    c10_assocRaw
  have hsort2 : jsSortBy (fun a b : ForecastUtils.Assoc => b.strength ≤ a.strength)
      [{ sku := "S2", strength := 1, correlation := 1, type := "correlation" },
       { sku := "S3", strength := 1, correlation := 1, type := "correlation" }] =
      [{ sku := "S2", strength := 1, correlation := 1, type := "correlation" },
       { sku := "S3", strength := 1, correlation := 1, type := "correlation" }] :=
    jsSortBy_of_pairwise (by simp)
  refine ⟨?_, ?_, by simp⟩
  · rw [ForecastUtils.calculateCorrelationAssociations]
    rw [show c10metrics = mkRec "S1" :: [mkRec "S2", mkRec "S3"] from rfl]
    rw [List.map_cons]
    rw [List.find?_cons_of_pos _ (by rfl)]
    rw [Option.map_some']
    rw [c10_months, ha2, hsort2]
    rfl
  · rw [c10_months, c10_series_S1, c10_series_S3, c10_ratList, c10_pearson_self]
    norm_num
